import Mathlib

/-!
Verification of the gemini-cli rate limiter, token/cost accounting, trial
mode, SSE chat stream, and encryption helpers, as a shallow embedding of
the TypeScript sources.

Conventions of the embedding:
* JS `number` timestamps (epoch milliseconds) and counters are `Int`;
  `Date.now()` values are nonnegative, where that matters the theorems are
  stated for the general `Int.emod`, which agrees with the JS `%` operator
  on nonnegative operands.
* Database tables are association lists (`List` of row structures) in table
  order; a Drizzle/Supabase `select ... where` is a `List.filter`, a
  Supabase `.single()` yields data exactly when one row matches, and an
  update/insert returns the new table state.
* ISO-8601 timestamp strings compare in the same order as the underlying
  epoch milliseconds, so the Supabase `gte('window_start', iso)` filters are
  embedded directly on the integer timestamps.
* Fallible code returns `Except String` values; a thrown `Error` is the
  `.error` constructor with the message that the source constructs.
-/

namespace GeminiCLI

/-! ## Rate limiting data model

`src/db/schema.ts` (Drizzle `limits` table) and the Supabase `rate_limits`
table disagree on field names (`req_count` vs `request_count`); both
variants are embedded with their own row type.  Supabase columns are
nullable, which the source compensates for with `|| 0`; the Drizzle code
reads the counters without a null guard, and the embedding gives that table
non-null counters (the only writer, `recordUsage`, always supplies them). -/

/-- Row of the Drizzle `limits` table: one counter row per (user, hour bucket). -/
structure LimitsRow where
  user_id : String
  window_start : Int
  req_count : Int
  token_count : Int
deriving Repr, DecidableEq

/-- Row of the Supabase `rate_limits` table, with its `id` primary key and
nullable counters. -/
structure RateLimitsRow where
  id : Int
  user_id : String
  window_start : Int
  request_count : Option Int
  token_count : Option Int
deriving Repr, DecidableEq

/-- Result shape of both `checkLimit` implementations. -/
structure CheckLimitResult where
  allowed : Bool
  remaining : Int
  tokensRemaining : Int
deriving Repr, DecidableEq

/-- Hour-aligned bucket start used by both `recordUsage` implementations:
`now.getTime() - (now.getTime() % (60 * 60 * 1000))`. -/
def hourWindowStart (now : Int) : Int := now - now % (60 * 60 * 1000)

namespace RateLimitModel

/-- Row filter of `RateLimitModel.checkLimit`'s query: `eq(limits.user_id,
userId)` and `gte(limits.window_start, windowStart)`. -/
def inWindow (userId : String) (windowStart : Int) (r : LimitsRow) : Bool :=
  r.user_id == userId && decide (windowStart ≤ r.window_start)

/-- Row filter of `RateLimitModel.recordUsage`'s update: `eq(limits.user_id,
userId)` and `eq(limits.window_start, windowStart)`. -/
def inBucket (userId : String) (windowStart : Int) (r : LimitsRow) : Bool :=
  r.user_id == userId && r.window_start == windowStart

/-- `RateLimitModel.checkLimit` (models/supabase-chat.ts, Drizzle half).
Computes `windowStart = Date.now() - windowMinutes * 60 * 1000`, selects the
first row for the user with `window_start >= windowStart`, and compares its
counters against the thresholds.  The method only selects, so the table is
returned unchanged.  The source defaults are `windowMinutes = 60`,
`maxRequests = 100`, `maxTokens = 10000`. -/
def checkLimit (rows : List LimitsRow) (userId : String)
    (windowMinutes maxRequests maxTokens now : Int) :
    CheckLimitResult × List LimitsRow :=
  let windowStart := now - windowMinutes * 60 * 1000
  match (rows.filter (inWindow userId windowStart)).head? with
  | none =>
      (⟨true, maxRequests - 1, maxTokens⟩, rows)
  | some currentLimit =>
      (⟨decide (currentLimit.req_count < maxRequests) &&
          decide (currentLimit.token_count < maxTokens),
        max 0 (maxRequests - currentLimit.req_count),
        max 0 (maxTokens - currentLimit.token_count)⟩, rows)

/-- Set clause of `RateLimitModel.recordUsage`'s update: `req_count + 1`,
`token_count + tokensUsed`. -/
def bumpRow (tokensUsed : Int) (r : LimitsRow) : LimitsRow :=
  { r with req_count := r.req_count + 1,
           token_count := r.token_count + tokensUsed }

/-- `RateLimitModel.recordUsage` (models/supabase-chat.ts, Drizzle half).
Updates every row of the (user, hour bucket) pair, incrementing `req_count`
by one and `token_count` by `tokensUsed`; when no row was updated it inserts
a fresh row with counts `1` and `tokensUsed`. -/
def recordUsage (rows : List LimitsRow) (userId : String)
    (tokensUsed now : Int) : List LimitsRow :=
  let windowStart := hourWindowStart now
  let updated := rows.map (fun r =>
    if inBucket userId windowStart r then bumpRow tokensUsed r else r)
  if (rows.filter (inBucket userId windowStart)).length == 0 then
    rows ++ [{ user_id := userId, window_start := windowStart,
               req_count := 1, token_count := tokensUsed }]
  else updated

end RateLimitModel

namespace SupabaseRateLimitModel

/-- Row filter of `SupabaseRateLimitModel.checkLimit`'s query:
`eq('user_id', userId)` and `gte('window_start', windowStart)`. -/
def inWindow (userId : String) (windowStart : Int) (r : RateLimitsRow) : Bool :=
  r.user_id == userId && decide (windowStart ≤ r.window_start)

/-- Row filter of `SupabaseRateLimitModel.recordUsage`'s lookup:
`eq('user_id', userId)` and `eq('window_start', windowStart)`. -/
def inBucket (userId : String) (windowStart : Int) (r : RateLimitsRow) : Bool :=
  r.user_id == userId && r.window_start == windowStart

/-- A PostgREST `.single()` call: `data` is non-null exactly when the filter
matches one row; with zero or several matches the error is only logged and
`data` stays null. -/
def singleRow (found : List RateLimitsRow) : Option RateLimitsRow :=
  match found with
  | [r] => some r
  | _ => none

/-- `SupabaseRateLimitModel.checkLimit` (models/supabase-chat.ts).  Same
window arithmetic as the Drizzle variant; the row lookup goes through
`.single()`, and null counters are coalesced with `|| 0`. -/
def checkLimit (rows : List RateLimitsRow) (userId : String)
    (windowMinutes maxRequests maxTokens now : Int) :
    CheckLimitResult × List RateLimitsRow :=
  let windowStart := now - windowMinutes * 60 * 1000
  match singleRow (rows.filter (inWindow userId windowStart)) with
  | none =>
      (⟨true, maxRequests - 1, maxTokens⟩, rows)
  | some data =>
      (⟨decide (data.request_count.getD 0 < maxRequests) &&
          decide (data.token_count.getD 0 < maxTokens),
        max 0 (maxRequests - data.request_count.getD 0),
        max 0 (maxTokens - data.token_count.getD 0)⟩, rows)

/-- Update payload of `SupabaseRateLimitModel.recordUsage`: the new counter
values are computed from the looked-up `existingRecord` (with `|| 0` null
coalescing) and written to the row found by `eq('id', existingRecord.id)`. -/
def setCounts (existingRecord : RateLimitsRow) (tokensUsed : Int)
    (r : RateLimitsRow) : RateLimitsRow :=
  { r with request_count := some (existingRecord.request_count.getD 0 + 1),
           token_count := some (existingRecord.token_count.getD 0 + tokensUsed) }

/-- `SupabaseRateLimitModel.recordUsage` (models/supabase-chat.ts).  Looks up
the (user, hour bucket) row with `.single()`; when found, updates the row
with that `id`, otherwise inserts a fresh row (`freshId` stands for the
serial id Postgres assigns). -/
def recordUsage (rows : List RateLimitsRow) (userId : String)
    (tokensUsed now freshId : Int) : List RateLimitsRow :=
  let windowStart := hourWindowStart now
  match singleRow (rows.filter (inBucket userId windowStart)) with
  | some existingRecord =>
      rows.map (fun r =>
        if r.id == existingRecord.id then setCounts existingRecord tokensUsed r
        else r)
  | none =>
      rows ++ [{ id := freshId, user_id := userId, window_start := windowStart,
                 request_count := some 1, token_count := some tokensUsed }]

end SupabaseRateLimitModel

/-! ## JS string primitives on character lists

JS strings whose algorithms matter (substring dispatch, splitting, prefix
tests) are embedded as `List Char`; the primitives below are the JS string
methods the sources use. -/

/-- JS `String.prototype.startsWith`: does `s` begin with `pre`? -/
def listStartsWith : List Char → List Char → Bool
  | _, [] => true
  | [], _ :: _ => false
  | c :: cs, p :: ps => c == p && listStartsWith cs ps

/-- JS `String.prototype.includes`: does `s` contain `sub`? -/
def hasSub (s sub : List Char) : Bool :=
  match s with
  | [] => listStartsWith [] sub
  | _ :: rest => listStartsWith s sub || hasSub rest sub

/-- JS `String.prototype.split` with a single-character separator:
`"".split(sep) = [""]`, and separators delimit (possibly empty) fields. -/
def splitOnChar (sep : Char) : List Char → List (List Char)
  | [] => [[]]
  | c :: rest =>
    if c == sep then [] :: splitOnChar sep rest
    else
      match splitOnChar sep rest with
      | [] => [[c]]
      | p :: ps => (c :: p) :: ps

/-- JS `String.prototype.toLowerCase`, restricted to ASCII (every keyword
the services lowercase-match on is ASCII). -/
def toLowerList (s : List Char) : List Char := s.map Char.toLower

/-! ## Token estimation (GeminiService) -/

/-- Response shape of `GeminiService` methods. -/
structure GeminiResponse where
  content : List Char
  tokensUsed : Int
deriving Repr, DecidableEq

namespace GeminiService

/-- `GeminiService.estimateTokens`: `Math.ceil(text.length / 4)`. -/
def estimateTokens (text : List Char) : Int :=
  ⌈(text.length : ℚ) / 4⌉

/-- Success path of `GeminiService.generateText` (services/gemini.ts, lines
59-80), given the text the SDK returned for the prompt: the returned
response carries `estimateTokens(prompt + text)` and the same count is
passed to the usage-stats recorder (second component). -/
def generateTextOk (prompt text : List Char) : GeminiResponse × Int :=
  let tokensUsed := estimateTokens (prompt ++ text)
  ({ content := text, tokensUsed := tokensUsed }, tokensUsed)

end GeminiService

/-! ## IEEE-754 binary64 arithmetic model

`calculateCost` multiplies JS numbers, i.e. IEEE-754 binary64 doubles.
Every finite double is an exact rational, embedded here as an integer
numerator/denominator pair with positive denominator; `roundToDoubleF`
rounds such a pair to the nearest binary64 value (round to nearest, ties
to even), and `dmulF`/`ddivF` are double multiplication and division
(exact product or quotient, then one binary64 rounding) — the model of
normal finite doubles, which covers every value in the cost pipeline
(no subnormals, overflow, NaN or negative zero arise there). -/

/-- Round an exact fraction (positive denominator) to the nearest integer,
ties to even — the IEEE-754 significand rounding. -/
def roundTiesEvenF (a : ℤ × ℤ) : ℤ :=
  let f := a.1 / a.2
  let r2 := 2 * (a.1 - f * a.2)
  if r2 < a.2 then f
  else if a.2 < r2 then f + 1
  else if f % 2 = 0 then f else f + 1

/-- Scale a positive fraction into `[1, 2)` by powers of two, returning the
scaled fraction and the binary exponent (fuel covers the full binary64
exponent range). -/
def binNormalizeF : ℕ → ℤ × ℤ → ℤ → (ℤ × ℤ) × ℤ
  | 0, a, e => (a, e)
  | fuel + 1, a, e =>
    if a.1 < a.2 then binNormalizeF fuel (2 * a.1, a.2) (e - 1)
    else if 2 * a.2 ≤ a.1 then binNormalizeF fuel (a.1, 2 * a.2) (e + 1)
    else (a, e)

/-- Nearest binary64 value of a positive fraction: normalize to `[1, 2)`,
round the 53-bit significand ties-to-even, and rescale. -/
def roundDoublePosF (a : ℤ × ℤ) : ℤ × ℤ :=
  let p := binNormalizeF 1200 a 0
  let m := roundTiesEvenF (p.1.1 * 2 ^ 52, p.1.2)
  if 52 ≤ p.2 then (m * 2 ^ (p.2 - 52).toNat, 1)
  else (m, 2 ^ (52 - p.2).toNat)

/-- Nearest binary64 value of a fraction with positive denominator (sign
symmetric, as IEEE rounding is). -/
def roundToDoubleF (a : ℤ × ℤ) : ℤ × ℤ :=
  if a.1 = 0 then (0, 1)
  else if a.1 < 0 then
    ((-(roundDoublePosF (-a.1, a.2)).1), (roundDoublePosF (-a.1, a.2)).2)
  else roundDoublePosF a

/-- Exact product of fractions. -/
def fmul (a b : ℤ × ℤ) : ℤ × ℤ := (a.1 * b.1, a.2 * b.2)

/-- Exact quotient of fractions (second numerator positive at all uses). -/
def fdivExact (a b : ℤ × ℤ) : ℤ × ℤ := (a.1 * b.2, a.2 * b.1)

/-- Double multiplication: exact product, one binary64 rounding. -/
def dmulF (a b : ℤ × ℤ) : ℤ × ℤ := roundToDoubleF (fmul a b)

/-- Double division: exact quotient, one binary64 rounding. -/
def ddivF (a b : ℤ × ℤ) : ℤ × ℤ := roundToDoubleF (fdivExact a b)

/-- ECMAScript `Math.round` on the exact value of a double: the closest
integer, ties toward `+∞`, i.e. `⌊x + 1/2⌋` — as integer arithmetic on the
fraction. -/
def jsRoundF (a : ℤ × ℤ) : ℤ := (2 * a.1 + a.2) / (2 * a.2)

/-- Exact rational value of a fraction pair. -/
def toRat (a : ℤ × ℤ) : ℚ := (a.1 : ℚ) / (a.2 : ℚ)

/-! ## Cost accounting (UsageStatsService / SupabaseUsageStatsService)

The Drizzle-backed `UsageStatsService` and the Supabase-backed
`SupabaseUsageStatsService` carry identical `DEFAULT_COST_SETTINGS`,
`calculateCost` and cost-cents computations; the embedding is shared and
uses the binary64 model above: the JS literals 0.000125 / 0.000075 /
0.0001 denote the doubles nearest those decimals, and each `*` and `/`
rounds to binary64.  Token counts are taken exactly (as `estimateTokens`
produces integers well below 2^53). -/

namespace UsageStatsService

/-- `DEFAULT_COST_SETTINGS.costPerToken[model] || 0.0001`: the per-model
static cost table with its fallback; each entry is the binary64 double
denoted by the source's decimal literal. -/
def costPerToken (model : String) : ℤ × ℤ :=
  if model = "gemini-1.5-pro" then roundToDoubleF (125, 1000000)
  else if model = "gemini-1.5-flash" then roundToDoubleF (75, 1000000)
  else if model = "gemini-pro" then roundToDoubleF (1, 10000)
  else roundToDoubleF (1, 10000)

/-- `calculateCost(model, tokens) = (tokens / 1000) * costPerToken`, in
double arithmetic; the result is the exact value of the computed double. -/
def calculateCost (model : String) (tokens : Int) : ℤ × ℤ :=
  dmulF (ddivF (tokens, 1) (1000, 1)) (costPerToken model)

/-- Cents computed by `recordUsage`:
`Math.round(this.calculateCost(model, tokensUsed) * 100)`, the final
multiplication again in double arithmetic. -/
def estimatedCostCents (model : String) (tokensUsed : Int) : Int :=
  jsRoundF (dmulF (calculateCost model tokensUsed) (100, 1))

/-- Row inserted into `usage_stats` by `recordUsage`. -/
structure UsageStatsRow where
  user_id : String
  model : String
  tokens_used : Int
  estimated_cost : Int
  request_type : String
  prompt_tokens : Int
  completion_tokens : Int
deriving Repr, DecidableEq

/-- `recordUsage` (usage-stats.ts / supabase-usage-stats.ts): the inserted
row persists the computed integer cents in `estimated_cost`. -/
def recordUsageRow (userEmail model : String) (tokensUsed : Int)
    (requestType : String) (promptTokens completionTokens : Int) : UsageStatsRow :=
  { user_id := userEmail, model := model, tokens_used := tokensUsed,
    estimated_cost := estimatedCostCents model tokensUsed,
    request_type := requestType, prompt_tokens := promptTokens,
    completion_tokens := completionTokens }

/-- Rate table exactly as the claim states it (0.000125 for
gemini-1.5-pro, 0.000075 for gemini-1.5-flash, 0.0001 for gemini-pro and
for every other model), for comparison against the code's table. -/
def specRate (model : String) : ℚ :=
  if model = "gemini-1.5-pro" then 125 / 1000000
  else if model = "gemini-1.5-flash" then 75 / 1000000
  else if model = "gemini-pro" then 1 / 10000
  else 1 / 10000

/-- The claim's rate table as exact fractions, for feeding the binary64
model. -/
def specRateF (model : String) : ℤ × ℤ :=
  if model = "gemini-1.5-pro" then (125, 1000000)
  else if model = "gemini-1.5-flash" then (75, 1000000)
  else if model = "gemini-pro" then (1, 10000)
  else (1, 10000)

end UsageStatsService

/-! ## Trial mode (services/trial-mode.ts) -/

/-- `TRIAL_LIMITS.featuresEnabled`. -/
structure TrialFeatures where
  fileUpload : Bool
  scriptGeneration : Bool
  codeAnalysis : Bool
  pdfAnalysis : Bool
deriving Repr, DecidableEq

/-- Shape of the `TRIAL_LIMITS` constant. -/
structure TrialLimits where
  maxTokensPerDay : Int
  maxRequestsPerDay : Int
  allowedModels : List String
  maxFileSize : Int
  featuresEnabled : TrialFeatures
deriving Repr, DecidableEq

/-- `TRIAL_LIMITS` (services/trial-mode.ts). -/
def TRIAL_LIMITS : TrialLimits :=
  { maxTokensPerDay := 1000
    maxRequestsPerDay := 50
    allowedModels := ["gemini-1.5-flash"]
    maxFileSize := 5 * 1024 * 1024
    featuresEnabled :=
      { fileUpload := false, scriptGeneration := true,
        codeAnalysis := true, pdfAnalysis := false } }

namespace TrialModeService

/-- `TrialModeService.TRIAL_USER_PREFIX`. -/
def TRIAL_USER_PREFIX : String := "trial_"

/-- `isTrialUser`: `userId.startsWith(TRIAL_USER_PREFIX)`. -/
def isTrialUser (userId : String) : Bool :=
  listStartsWith userId.data TRIAL_USER_PREFIX.data

/-- Result shape of `canTrialUserMakeRequest`. -/
structure TrialCheck where
  allowed : Bool
  remaining : Int
  tokensRemaining : Int
  reason : Option String
deriving Repr, DecidableEq

/-- `canTrialUserMakeRequest`: throws for non-trial ids, otherwise checks
`RateLimitModel.checkLimit(userId, 24 * 60, maxRequestsPerDay,
maxTokensPerDay)` and reports the limiter's verdict with a reason when
denied.  `rows`/`now` carry the limiter's table state and clock. -/
def canTrialUserMakeRequest (rows : List LimitsRow) (now : Int)
    (userId : String) : Except String TrialCheck :=
  if !isTrialUser userId then .error "Not a trial user"
  else
    let limits := (RateLimitModel.checkLimit rows userId (24 * 60)
      TRIAL_LIMITS.maxRequestsPerDay TRIAL_LIMITS.maxTokensPerDay now).1
    if !limits.allowed then
      .ok { allowed := false, remaining := limits.remaining,
            tokensRemaining := limits.tokensRemaining,
            reason := some (if limits.remaining ≤ 0
              then "Daily request limit exceeded"
              else "Daily token limit exceeded") }
    else
      .ok { allowed := true, remaining := limits.remaining,
            tokensRemaining := limits.tokensRemaining, reason := none }

/-- Result shape of `getTrialUserStats`.  The source's `resetTime` field
(the next local midnight) depends on the server timezone and stays outside
the embedding. -/
structure TrialStats where
  requestsToday : Int
  tokensToday : Int
  requestsRemaining : Int
  tokensRemaining : Int
deriving Repr, DecidableEq

/-- `getTrialUserStats`: throws for non-trial ids, otherwise derives today's
usage from the same `checkLimit(userId, 24 * 60, maxRequestsPerDay,
maxTokensPerDay)` call. -/
def getTrialUserStats (rows : List LimitsRow) (now : Int)
    (userId : String) : Except String TrialStats :=
  if !isTrialUser userId then .error "Not a trial user"
  else
    let limits := (RateLimitModel.checkLimit rows userId (24 * 60)
      TRIAL_LIMITS.maxRequestsPerDay TRIAL_LIMITS.maxTokensPerDay now).1
    .ok { requestsToday := TRIAL_LIMITS.maxRequestsPerDay - limits.remaining,
          tokensToday := TRIAL_LIMITS.maxTokensPerDay - limits.tokensRemaining,
          requestsRemaining := limits.remaining,
          tokensRemaining := limits.tokensRemaining }

/-- `isModelAllowedForTrial`: `TRIAL_LIMITS.allowedModels.includes(model)`. -/
def isModelAllowedForTrial (model : String) : Bool :=
  TRIAL_LIMITS.allowedModels.contains model

/-- Result shape of `validateTrialRequest`; `limits` carries
`(remaining, tokensRemaining)` when present. -/
structure TrialValidation where
  valid : Bool
  error : Option String
  limits : Option (Int × Int)
deriving Repr, DecidableEq

/-- `validateTrialRequest`: rejects non-trial ids, then models not in
`allowedModels`, then consults `canTrialUserMakeRequest`, then the
estimated-token headroom.  The inner `.error` branch is unreachable (the
trial-user guard already passed) and is propagated verbatim. -/
def validateTrialRequest (rows : List LimitsRow) (now : Int)
    (userId model : String) (estimatedTokens : Int) : TrialValidation :=
  if !isTrialUser userId then
    { valid := false, error := some "Not a trial user", limits := none }
  else if !isModelAllowedForTrial model then
    { valid := false,
      error := some ("Model " ++ model ++
        " is not available in trial mode. Please use " ++
        String.intercalate " or " TRIAL_LIMITS.allowedModels ++ "."),
      limits := none }
  else
    match canTrialUserMakeRequest rows now userId with
    | .error e => { valid := false, error := some e, limits := none }
    | .ok canMakeRequest =>
      if !canMakeRequest.allowed then
        { valid := false,
          error := some (canMakeRequest.reason.getD "Trial limit exceeded"),
          limits := some (canMakeRequest.remaining, canMakeRequest.tokensRemaining) }
      else if estimatedTokens > 0 ∧ estimatedTokens > canMakeRequest.tokensRemaining then
        { valid := false,
          error := some ("Estimated tokens (" ++ toString estimatedTokens ++
            ") exceed remaining daily limit (" ++
            toString canMakeRequest.tokensRemaining ++ ")"),
          limits := some (canMakeRequest.remaining, canMakeRequest.tokensRemaining) }
      else
        { valid := true, error := none,
          limits := some (canMakeRequest.remaining, canMakeRequest.tokensRemaining) }

end TrialModeService

/-! ## Encryption helper (lib/encryption.ts)

`encrypt` calls the legacy `crypto.createCipher(ALGORITHM, ENCRYPTION_KEY)`
constructor, which derives the whole cipher state from the password alone;
the separately generated 16-byte `iv` is embedded in the output string but
never seeds the cipher.  The embedding therefore takes the cipher core as a
function `cipherRun : plaintext → (ciphertext bytes, auth tag bytes)` — its
determinism in the plaintext is exactly what `createCipher` provides — and
`decrypt`'s `crypto.createDecipher` core as
`decipherRun : ciphertext bytes → auth tag bytes → plaintext-or-error`
(`.error` when `decipher.final` throws, e.g. on auth failure).  Bytes are
naturals below 256. -/

/-- Lowercase hex digit of a nibble, as in `Buffer.toString` with hex. -/
def hexDigit (n : Nat) : Char :=
  if n < 10 then Char.ofNat (48 + n) else Char.ofNat (87 + n)

/-- Hex encoding of a byte list (two lowercase digits per byte). -/
def hexOfBytes : List Nat → List Char
  | [] => []
  | b :: bs => hexDigit (b / 16) :: hexDigit (b % 16) :: hexOfBytes bs

/-- Value of a hex digit, as in `Buffer.from` with hex decoding. -/
def hexVal (c : Char) : Nat :=
  if 48 ≤ c.toNat ∧ c.toNat ≤ 57 then c.toNat - 48
  else if 97 ≤ c.toNat ∧ c.toNat ≤ 102 then c.toNat - 87
  else if 65 ≤ c.toNat ∧ c.toNat ≤ 70 then c.toNat - 55
  else 0

/-- Hex decoding of a digit list into bytes (pairs of digits; a trailing
odd digit is dropped, as `Buffer.from` does). -/
def bytesOfHex : List Char → List Nat
  | c₁ :: c₂ :: rest => (hexVal c₁ * 16 + hexVal c₂) :: bytesOfHex rest
  | _ => []

/-- `encrypt` (lib/encryption.ts): hex of the random `iv`, hex of the auth
tag, and the hex ciphertext, joined with colons — the `iv` appears only in
the first field and is never given to the cipher. -/
def encrypt (cipherRun : List Char → List Nat × List Nat) (iv : List Nat)
    (text : List Char) : List Char :=
  let encrypted := hexOfBytes (cipherRun text).1
  let authTag := (cipherRun text).2
  hexOfBytes iv ++ [':'] ++ hexOfBytes authTag ++ [':'] ++ encrypted

/-- `decrypt` (lib/encryption.ts): split on colons, throw
`Invalid encrypted data format` unless there are exactly three parts, then
run the legacy decipher on the ciphertext with the auth tag; the parsed
`ivHex` field is decoded but never used (`createDecipher` takes no IV). -/
def decrypt (decipherRun : List Nat → List Nat → Except (List Char) (List Char))
    (encryptedData : List Char) : Except (List Char) (List Char) :=
  match splitOnChar ':' encryptedData with
  | [_ivHex, authTagHex, encrypted] =>
      decipherRun (bytesOfHex encrypted) (bytesOfHex authTagHex)
  | _ => Except.error "Invalid encrypted data format".data

/-! ## SSE stream of POST /api/chat/stream (app/api/chat/stream/route.ts) -/

/-- An event written to the SSE body: `data: {"chunk": ...}`,
`data: {"error": ...}`, or the `data: [DONE]` terminator. -/
inductive SSEEvent where
  | chunk (content : List Char)
  | errorEvent (message : List Char)
  | done
deriving Repr, DecidableEq

/-- How the `generateStreamingText` generator ends after its yields: a
normal completion carrying the optional final `GeminiResponse`, or a thrown
error (its message). -/
inductive GenTerminal where
  | ret (result : Option GeminiResponse)
  | thrown (message : List Char)
deriving Repr, DecidableEq

/-- The `start` callback of the route's `ReadableStream`, for a generator
that yields `chunks` and then ends as `term`: each yielded chunk is
enqueued as a chunk event; a generator error is caught by the inner
`try/catch` and only logged; `data: [DONE]` is enqueued unconditionally
afterwards.  When the generator completes with a truthy final result, its
`tokensUsed` is recorded (second component); the outer catch that would
enqueue an error event instead of `[DONE]` can only fire if `enqueue`
itself throws (client abort), which the embedding excludes. -/
def streamStart (chunks : List (List Char)) (term : GenTerminal) :
    List SSEEvent × Option Int :=
  (chunks.map SSEEvent.chunk ++ [SSEEvent.done],
   match term with
   | GenTerminal.ret (some finalResult) => some finalResult.tokensUsed
   | _ => none)

/-! ## Fallback response generator (the part_005 GeminiService variant)

The repository carries a second `GeminiService` (src/unnamed/part_005)
whose `generateText` wraps the SDK call in an inner `try/catch`: on an API
failure it substitutes a hand-authored template selected by substring
matching on the prompt and returns it as a successful response.  The
`GeminiService` in src/services/gemini.ts has no such inner catch and
rethrows instead; both variants are embedded below. -/

/-- JS regex test `/[\u4e00-\u9fff]/.test(prompt)`: does the prompt contain
a CJK unified ideograph? -/
def isChineseTest (prompt : List Char) : Bool :=
  prompt.any (fun c => decide (0x4e00 ≤ c.toNat ∧ c.toNat ≤ 0x9fff))

/-- JS regex test `/a.*?b/` for literals `a` and `b`: an occurrence of `a`
followed (not overlapping) by an occurrence of `b`. -/
def hasSeq (a b s : List Char) : Bool :=
  match s with
  | [] => listStartsWith [] a && hasSub [] b
  | _ :: rest => (listStartsWith s a && hasSub (s.drop a.length) b) || hasSeq a b rest

/-- ASCII digit test, for the `\d` regex class. -/
def isAsciiDigit (c : Char) : Bool := decide (48 ≤ c.toNat ∧ c.toNat ≤ 57)

/-- Start-anchored test of `\d\x7b4\x7d年`: four digits then `年`. -/
def startsWithYearDigits (s : List Char) : Bool :=
  match s with
  | d₁ :: d₂ :: d₃ :: d₄ :: y :: _ =>
      isAsciiDigit d₁ && isAsciiDigit d₂ && isAsciiDigit d₃ && isAsciiDigit d₄ &&
        y == '年'
  | _ => false

/-- JS regex test `/\d\x7b4\x7d年.*?的/`. -/
def hasYearPattern (s : List Char) : Bool :=
  match s with
  | [] => false
  | _ :: rest => (startsWithYearDigits s && hasSub (s.drop 5) ['的']) || hasYearPattern rest

namespace GeminiServiceP5

/-- `chineseSearchKeywords` of `needsWebSearch`. -/
def chineseSearchKeywords : List (List Char) :=
  ["联网搜索".data, "网络搜索".data, "搜索一下".data, "查询一下".data, "最新".data,
   "当前".data, "现在".data, "今天".data, "最近".data,
   "新闻".data, "资讯".data, "行情".data, "价格".data, "股价".data, "汇率".data,
   "天气".data, "疫情".data, "政策".data, "动态".data,
   "目前".data, "现状".data, "趋势".data, "发展".data, "变化".data, "更新".data,
   "发布".data, "公告".data, "通知".data]

/-- `englishSearchKeywords` of `needsWebSearch`. -/
def englishSearchKeywords : List (List Char) :=
  ["search".data, "latest".data, "current".data, "now".data, "today".data,
   "recent".data, "news".data, "price".data, "weather".data,
   "stock".data, "market".data, "trend".data, "update".data, "release".data,
   "announcement".data, "real-time".data,
   "live".data, "breaking".data, "fresh".data, "new".data, "recently".data,
   "nowadays".data, "presently".data]

/-- The twelve `timeRelatedPatterns` regexes, tested against the raw
prompt: the four-digit year pattern and eleven `A.*?B` literal pairs. -/
def hasTimePattern (prompt : List Char) : Bool :=
  hasYearPattern prompt ||
  hasSeq "最新".data "版本".data prompt ||
  hasSeq "最好用".data "工具".data prompt ||
  hasSeq "现在".data "情况".data prompt ||
  hasSeq "目前".data "状态".data prompt ||
  hasSeq "今天".data "价格".data prompt ||
  hasSeq "最近".data "消息".data prompt ||
  hasSeq "when".data "released".data prompt ||
  hasSeq "what".data "latest".data prompt ||
  hasSeq "current".data "status".data prompt ||
  hasSeq "today".data "price".data prompt ||
  hasSeq "recent".data "news".data prompt

/-- `needsWebSearch` (part_005): keyword lists (Chinese on the raw prompt,
English on the lowercased prompt), the time patterns, and the four
query-type alternation regexes, all tested on the raw prompt. -/
def needsWebSearch (prompt : List Char) : Bool :=
  let lowerPrompt := toLowerList prompt
  let hasChineseKeyword := chineseSearchKeywords.any (fun k => hasSub prompt k)
  let hasEnglishKeyword := englishSearchKeywords.any (fun k => hasSub lowerPrompt k)
  let isNewsQuery := hasSub prompt "新闻".data || hasSub prompt "资讯".data ||
    hasSub prompt "消息".data || hasSub prompt "news".data ||
    hasSub prompt "breaking".data
  let isPriceQuery := hasSub prompt "价格".data || hasSub prompt "股价".data ||
    hasSub prompt "汇率".data || hasSub prompt "price".data ||
    hasSub prompt "stock".data || hasSub prompt "exchange".data
  let isWeatherQuery := hasSub prompt "天气".data || hasSub prompt "weather".data ||
    hasSub prompt "temperature".data || hasSub prompt "forecast".data
  let isVersionQuery := hasSub prompt "版本".data || hasSub prompt "version".data ||
    hasSub prompt "update".data || hasSub prompt "release".data
  hasChineseKeyword || hasEnglishKeyword || hasTimePattern prompt ||
    isNewsQuery || isPriceQuery || isWeatherQuery || isVersionQuery

/-- `chinesePatterns` of `isSpecificProgrammingRequest`. -/
def chinesePatterns : List (List Char) :=
  ["写一个".data, "帮我写".data, "实现一个".data, "创建一个".data, "生成一个".data,
   "开发一个".data,
   "冒泡排序".data, "快速排序".data, "二分查找".data, "斐波那契".data, "递归".data,
   "算法".data,
   "组件".data, "页面".data, "函数".data, "类".data, "接口".data]

/-- `englishPatterns` of `isSpecificProgrammingRequest`. -/
def englishPatterns : List (List Char) :=
  ["write a".data, "help me write".data, "create a".data, "implement a".data,
   "generate a".data, "build a".data,
   "bubble sort".data, "quick sort".data, "binary search".data, "fibonacci".data,
   "recursive".data, "algorithm".data,
   "component".data, "page".data, "function".data, "class".data, "interface".data]

/-- `isSpecificProgrammingRequest` (part_005): Chinese patterns on the raw
prompt, English patterns on the lowercased prompt. -/
def isSpecificProgrammingRequest (prompt : List Char) : Bool :=
  let lowerPrompt := toLowerList prompt
  chinesePatterns.any (fun p => hasSub prompt p) ||
    englishPatterns.any (fun p => hasSub lowerPrompt p)

/-! Template bodies, verbatim from part_005 (JS template-literal escapes
resolved; braces and apostrophes written with hex escapes). -/

def whoAmIZhT1 : String := "你好！我是 Gemini CLI 的 AI 编程助手。我可以帮助你：\n\n📝 **代码编写与优化**\n- 生成高质量的代码\n- 代码审查和重构建议\n- 性能优化方案\n\n🔧 **脚本生成**\n- 使用 `/script` 命令生成 bash 脚本\n- 自动化任务脚本\n- 部署和运维脚本\n\n🐛 **错误调试**\n- 分析错误信息\n- 提供解决方案\n- 最佳实践建议\n\n💡 **技术咨询**\n- 架构设计建议\n- 技术选型指导\n- 编程问题解答\n\n我现在正在使用智能响应模式为你提供服务。如需更强大的功能，请配置你的 Google API 密钥！"

def whoAmIEnT1 : String := "Hello! I\x27m the AI programming assistant for Gemini CLI. I can help you with:\n\n📝 **Code Writing & Optimization**\n- Generate high-quality code\n- Code review and refactoring suggestions\n- Performance optimization solutions\n\n🔧 **Script Generation**\n- Use `/script` command to generate bash scripts\n- Automation task scripts\n- Deployment and operations scripts\n\n🐛 **Error Debugging**\n- Analyze error messages\n- Provide solutions\n- Best practice recommendations\n\n💡 **Technical Consulting**\n- Architecture design advice\n- Technology selection guidance\n- Programming problem solving\n\nI\x27m currently using intelligent response mode to serve you. For more powerful features, please configure your Google API key!"

def generalZhT1 : String := "感谢你的问题！我是 Gemini CLI 的 AI 编程助手。\n\n**关于你的问题：** \""

def generalZhT2 : String := "\"\n\n我理解你想要获得相关的编程帮助。虽然当前无法连接到完整的 AI 模型，但我可以为你提供以下建议：\n\n🔍 **问题分析**\n- 请确保你的问题描述清晰具体\n- 提供相关的代码上下文会更有帮助\n- 说明你期望的结果或遇到的错误\n\n💡 **推荐做法**\n1. 使用 `/script` 命令生成脚本\n2. 在代码编辑器中编写代码并寻求帮助\n3. 上传 PDF 文档进行分析\n\n🛠️ **完整功能**\n为了获得最佳体验，请在设置中配置你的 Google API 密钥，这样我就能为你提供更强大和准确的 AI 辅助功能！\n\n有什么具体的编程问题我可以帮助你解决吗？"

def generalEnT1 : String := "Thank you for your question! I\x27m the AI programming assistant for Gemini CLI.\n\n**About your question:** \""

def generalEnT2 : String := "\"\n\nI understand you\x27re looking for programming assistance. While I can\x27t connect to the full AI model at the moment, I can provide you with the following guidance:\n\n🔍 **Problem Analysis**\n- Please ensure your question is clear and specific\n- Providing relevant code context would be more helpful\n- Describe the expected results or errors you\x27re encountering\n\n💡 **Recommended Practices**\n1. Use `/script` command to generate scripts\n2. Write code in the code editor and seek help\n3. Upload PDF documents for analysis\n\n🛠️ **Full Features**\nFor the best experience, please configure your Google API key in settings, so I can provide you with more powerful and accurate AI assistance!\n\nIs there any specific programming problem I can help you solve?"

def bubbleNextZhT1 : String := "好的！我来帮你用 Next.js 实现一个冒泡排序组件：\n\n## 🚀 Next.js 冒泡排序组件\n\n```tsx\n\x27use client\x27;\n\nimport \x7b useState \x7d from \x27react\x27;\n\nexport default function BubbleSort() \x7b\n  const [numbers, setNumbers] = useState<number[]>([64, 34, 25, 12, 22, 11, 90]);\n  const [sorting, setSorting] = useState(false);\n  const [sortedArray, setSortedArray] = useState<number[]>([]);\n  const [steps, setSteps] = useState<string[]>([]);\n\n  const bubbleSort = async () => \x7b\n    setSorting(true);\n    setSteps([]);\n    const arr = [...numbers];\n    const newSteps: string[] = [];\n    \n    for (let i = 0; i < arr.length - 1; i++) \x7b\n      for (let j = 0; j < arr.length - i - 1; j++) \x7b\n        // 比较相邻元素\n        if (arr[j] > arr[j + 1]) \x7b\n          // 交换元素\n          [arr[j], arr[j + 1]] = [arr[j + 1], arr[j]];\n          newSteps.push(`交换 $\x7barr[j + 1]\x7d 和 $\x7barr[j]\x7d`);\n        \x7d\n      \x7d\n      newSteps.push(`第 $\x7bi + 1\x7d 轮完成，最大值 $\x7barr[arr.length - 1 - i]\x7d 已就位`);\n    \x7d\n    \n    setSteps(newSteps);\n    setSortedArray(arr);\n    setSorting(false);\n  \x7d;\n\n  return (\n    <div className=\"p-6 max-w-2xl mx-auto\">\n      <h1 className=\"text-3xl font-bold mb-6\">🫧 冒泡排序演示</h1>\n      \n      <div className=\"mb-4\">\n        <h2 className=\"text-xl font-semibold mb-2\">原始数组:</h2>\n        <div className=\"flex gap-2 mb-4\">\n          \x7bnumbers.map((num, index) => (\n            <div key=\x7bindex\x7d className=\"bg-blue-500 text-white px-3 py-2 rounded\">\n              \x7bnum\x7d\n            </div>\n          ))\x7d\n        </div>\n        \n        <button\n          onClick=\x7bbubbleSort\x7d\n          disabled=\x7bsorting\x7d\n          className=\"bg-green-500 hover:bg-green-600 text-white px-4 py-2 rounded disabled:opacity-50\"\n        >\n          \x7bsorting ? \x27排序中...\x27 : \x27开始排序\x27\x7d\n        </button>\n      </div>\n\n      \x7bsortedArray.length > 0 && (\n        <div className=\"mb-4\">\n          <h2 className=\"text-xl font-semibold mb-2\">排序结果:</h2>\n          <div className=\"flex gap-2\">\n            \x7bsortedArray.map((num, index) => (\n              <div key=\x7bindex\x7d className=\"bg-green-500 text-white px-3 py-2 rounded\">\n                \x7bnum\x7d\n              </div>\n            ))\x7d\n          </div>\n        </div>\n      )\x7d\n    </div>\n  );\n\x7d\n```\n\n## 📁 使用方法\n\n1. 将代码保存为 `components/BubbleSort.tsx`\n2. 在页面中引入使用：\n\n```tsx\nimport BubbleSort from \x27@/components/BubbleSort\x27;\n\nexport default function Home() \x7b\n  return <BubbleSort />;\n\x7d\n```\n\n这个组件完美展示了冒泡排序的工作原理！"

def bubbleZhT1 : String := "我来帮你实现冒泡排序算法！\n\n## 🫧 冒泡排序实现\n\n```javascript\nfunction bubbleSort(arr) \x7b\n  const n = arr.length;\n  \n  for (let i = 0; i < n - 1; i++) \x7b\n    let swapped = false;\n    \n    for (let j = 0; j < n - i - 1; j++) \x7b\n      if (arr[j] > arr[j + 1]) \x7b\n        [arr[j], arr[j + 1]] = [arr[j + 1], arr[j]];\n        swapped = true;\n      \x7d\n    \x7d\n    \n    if (!swapped) break;\n  \x7d\n  \n  return arr;\n\x7d\n\n// 测试用例\nconst numbers = [64, 34, 25, 12, 22, 11, 90];\nconsole.log(\x27排序后:\x27, bubbleSort([...numbers]));\n```\n\n## 🔍 算法详解\n- 时间复杂度: O(n²)\n- 空间复杂度: O(1)\n- 稳定排序算法"

def bubbleEnT1 : String := "Here\x27s a bubble sort implementation!\n\n## 🫧 Bubble Sort Algorithm\n\n```javascript\nfunction bubbleSort(arr) \x7b\n  const n = arr.length;\n  \n  for (let i = 0; i < n - 1; i++) \x7b\n    let swapped = false;\n    \n    for (let j = 0; j < n - i - 1; j++) \x7b\n      if (arr[j] > arr[j + 1]) \x7b\n        [arr[j], arr[j + 1]] = [arr[j + 1], arr[j]];\n        swapped = true;\n      \x7d\n    \x7d\n    \n    if (!swapped) break;\n  \x7d\n  \n  return arr;\n\x7d\n\n// Test case\nconst numbers = [64, 34, 25, 12, 22, 11, 90];\nconsole.log(\x27Sorted:\x27, bubbleSort([...numbers]));\n```\n\n## 🔍 Algorithm Analysis\n- Time Complexity: O(n²)\n- Space Complexity: O(1)\n- Stable sorting algorithm"

def quickZhT1 : String := "快速排序实现代码..."

def quickEnT1 : String := "Quick sort implementation..."

def fibZhT1 : String := "斐波那契数列实现代码..."

def fibEnT1 : String := "Fibonacci sequence implementation..."

def reactZhT1 : String := "React组件实现代码..."

def reactEnT1 : String := "React component implementation..."

def genericCodeZhT1 : String := "我理解你想要编程帮助。根据你的问题：\""

def genericCodeZhT2 : String := "\"，我建议你：\n\n1. 明确具体需求和技术栈\n2. 在代码编辑器中开始编写\n3. 如有具体错误，请提供代码片段\n\n配置 API 密钥后可获得更准确的代码生成！"

def genericCodeEnT1 : String := "I understand you need programming help. Based on your question: \""

def genericCodeEnT2 : String := "\", I suggest:\n\n1. Clarify specific requirements and tech stack\n2. Start coding in the editor  \n3. Provide code snippets for specific errors\n\nConfigure API key for more accurate code generation!"

def scriptBackupZhT1 : String := "以下是一个文件备份脚本：\n\n```bash\n#!/bin/bash\n# 文件备份脚本\n\nSOURCE_DIR=\"/path/to/source\"\nBACKUP_DIR=\"/path/to/backup\"\nDATE=$(date +%Y%m%d_%H%M%S)\n\nmkdir -p \"$BACKUP_DIR\"\ntar -czf \"$BACKUP_DIR/backup_$DATE.tar.gz\" \"$SOURCE_DIR\"\n\necho \"备份完成: backup_$DATE.tar.gz\"\n```"

def scriptBackupEnT1 : String := "Here\x27s a file backup script:\n\n```bash\n#!/bin/bash\n# File backup script\n\nSOURCE_DIR=\"/path/to/source\"\nBACKUP_DIR=\"/path/to/backup\" \nDATE=$(date +%Y%m%d_%H%M%S)\n\nmkdir -p \"$BACKUP_DIR\"\ntar -czf \"$BACKUP_DIR/backup_$DATE.tar.gz\" \"$SOURCE_DIR\"\n\necho \"Backup completed: backup_$DATE.tar.gz\"\n```"

def codeRespZhT1 : String := "关于代码相关问题，我建议：\n\n🔍 **代码分析步骤**\n1. 检查语法错误\n2. 验证逻辑流程\n3. 测试边界条件\n4. 优化性能瓶颈\n\n💡 **最佳实践**\n- 编写清晰的注释\n- 使用有意义的变量名\n- 遵循代码规范\n- 进行单元测试\n\n如果你有具体的代码问题，请在编辑器中展示代码，我会提供更详细的帮助！"

def codeRespEnT1 : String := "Regarding code-related questions, I suggest:\n\n🔍 **Code Analysis Steps**\n1. Check syntax errors\n2. Verify logic flow\n3. Test edge cases\n4. Optimize performance bottlenecks\n\n💡 **Best Practices**\n- Write clear comments\n- Use meaningful variable names\n- Follow coding standards\n- Perform unit testing\n\nIf you have specific code issues, please show the code in the editor, and I\x27ll provide more detailed help!"

def aiToolsZhT1 : String := "# 🔍 关于 AI 工具的离线建议\n\n**你的问题:** \""

def aiToolsZhT2 : String := "\"\n\n"

def aiToolsZhNet3 : String := "⚠️ **网络连接问题**: 当前无法访问实时搜索，以下是基于知识库的推荐："

def aiToolsZhOff3 : String := "💡 **离线模式**: 基于已有知识为你推荐："

def aiToolsZhT4 : String := "\n\n## 🤖 目前最受欢迎的 AI 工具\n\n### **编程助手类**\n- **GitHub Copilot** - 代码自动补全和生成\n- **Cursor** - AI 原生代码编辑器\n- **Tabnine** - 智能代码补全工具\n- **CodeWhisperer** - Amazon 的代码助手\n\n### **对话 AI 类**\n- **ChatGPT** (OpenAI) - 最流行的对话AI\n- **Claude** (Anthropic) - 强大的推理能力\n- **Gemini** (Google) - 多模态AI助手\n- **文心一言** (百度) - 中文优化\n\n### **图像生成类**  \n- **Midjourney** - 艺术化图像生成\n- **DALL-E 3** - OpenAI图像生成\n- **Stable Diffusion** - 开源图像生成\n- **Leonardo.ai** - 专业设计工具\n\n### **写作助手类**\n- **Notion AI** - 笔记和写作助手\n- **Jasper** - 营销文案生成\n- **Copy.ai** - 内容创作平台\n\n## 🔧 使用建议\n\n1. **编程需求** → GitHub Copilot + Cursor\n2. **内容创作** → ChatGPT + Notion AI  \n3. **设计工作** → Midjourney + Leonardo.ai\n4. **研究学习** → Claude + 文心一言\n\n## 🌐 获取最新信息\n\n要获得最新的AI工具排行和评测，建议：\n- 访问 Product Hunt 的 AI 分类\n- 查看 GitHub Trending 的 AI 项目\n- 关注 AI 技术博客和社区\n\n"

def aiToolsZhNet5 : String := "\n⚡ **解决网络问题**: 请检查防火墙设置、代理配置或尝试使用VPN"

def aiToolsZhOff5 : String := ""

def aiToolsEnT1 : String := "# 🔍 AI Tools Recommendations (Offline Mode)\n\n**Your Query:** \""

def aiToolsEnT2 : String := "\"\n\n"

def aiToolsEnNet3 : String := "⚠️ **Network Issue**: Unable to access real-time search. Here are knowledge-based recommendations:"

def aiToolsEnOff3 : String := "💡 **Offline Mode**: Based on existing knowledge:"

def aiToolsEnT4 : String := "\n\n## 🤖 Most Popular AI Tools Currently\n\n### **Programming Assistants**\n- **GitHub Copilot** - Code completion and generation\n- **Cursor** - AI-native code editor\n- **Tabnine** - Intelligent code completion\n- **CodeWhisperer** - Amazon\x27s coding assistant\n\n### **Conversational AI**\n- **ChatGPT** (OpenAI) - Most popular conversational AI\n- **Claude** (Anthropic) - Strong reasoning capabilities\n- **Gemini** (Google) - Multimodal AI assistant\n- **Perplexity** - AI-powered search engine\n\n### **Image Generation**\n- **Midjourney** - Artistic image generation\n- **DALL-E 3** - OpenAI\x27s image generator\n- **Stable Diffusion** - Open-source image generation\n- **Leonardo.ai** - Professional design tool\n\n### **Writing Assistants**\n- **Notion AI** - Note-taking and writing\n- **Jasper** - Marketing copy generation\n- **Copy.ai** - Content creation platform\n\n## 🔧 Usage Recommendations\n\n1. **Coding Needs** → GitHub Copilot + Cursor\n2. **Content Creation** → ChatGPT + Notion AI\n3. **Design Work** → Midjourney + Leonardo.ai\n4. **Research & Learning** → Claude + Perplexity\n\n## 🌐 For Latest Information\n\nTo get the most current AI tool rankings:\n- Visit Product Hunt\x27s AI category\n- Check GitHub Trending AI projects\n- Follow AI tech blogs and communities\n\n"

def aiToolsEnNet5 : String := "\n⚡ **Fix Network**: Check firewall settings, proxy config, or try using a VPN"

def aiToolsEnOff5 : String := ""

def searchGenZhT1 : String := "# 🔍 搜索功能暂时不可用\n\n"

def searchGenZhNet2 : String := "⚠️ **网络连接问题**: 当前无法访问实时搜索服务"

def searchGenZhOff2 : String := "💡 **离线模式**: 搜索功能需要网络连接"

def searchGenZhT3 : String := "\n\n**你的问题:** \""

def searchGenZhT4 : String := "\"\n\n虽然无法进行实时搜索，但我可以基于现有知识帮助你：\n\n## 💡 建议解决方案\n1. **检查网络连接** - 确保能访问互联网\n2. **配置代理设置** - 如果在企业网络环境中\n3. **稍后重试** - 网络服务可能临时不可用\n4. **使用其他搜索引擎** - 作为临时替代方案\n\n## 🔧 我还能帮你什么？\n- 代码编写和调试\n- 技术问题解答  \n- 项目架构建议\n- 编程最佳实践\n\n请提供更具体的技术问题，我会尽力帮助你！"

def searchGenEnT1 : String := "# 🔍 Search Function Temporarily Unavailable\n\n"

def searchGenEnNet2 : String := "⚠️ **Network Issue**: Unable to access real-time search services"

def searchGenEnOff2 : String := "💡 **Offline Mode**: Search requires network connection"

def searchGenEnT3 : String := "\n\n**Your Query:** \""

def searchGenEnT4 : String := "\"\n\nWhile real-time search isn\x27t available, I can help based on existing knowledge:\n\n## 💡 Suggested Solutions\n1. **Check Network Connection** - Ensure internet access\n2. **Configure Proxy Settings** - If in corporate network\n3. **Retry Later** - Service may be temporarily unavailable\n4. **Use Alternative Search** - As temporary workaround\n\n## 🔧 How Else Can I Help?\n- Code writing and debugging\n- Technical problem solving\n- Project architecture advice\n- Programming best practices\n\nPlease provide more specific technical questions and I\x27ll do my best to help!"

/-- `generateBubbleSortResponse`: the Next.js Chinese component variant
when the lowercased prompt mentions nextjs/next.js and the prompt is
Chinese, otherwise the plain Chinese or English variant (the computed
`isReact` flag is unused in the source). -/
def generateBubbleSortResponse (prompt : List Char) (isChinesePrompt : Bool) :
    List Char :=
  let lowerPrompt := toLowerList prompt
  let isNextJS := hasSub lowerPrompt "nextjs".data || hasSub lowerPrompt "next.js".data
  if isNextJS && isChinesePrompt then bubbleNextZhT1.data
  else if isChinesePrompt then bubbleZhT1.data
  else bubbleEnT1.data

/-- `generateQuickSortResponse` (stub strings in the source). -/
def generateQuickSortResponse (_prompt : List Char) (isChinesePrompt : Bool) :
    List Char :=
  if isChinesePrompt then quickZhT1.data else quickEnT1.data

/-- `generateFibonacciResponse` (stub strings in the source). -/
def generateFibonacciResponse (_prompt : List Char) (isChinesePrompt : Bool) :
    List Char :=
  if isChinesePrompt then fibZhT1.data else fibEnT1.data

/-- `generateReactComponentResponse` (stub strings in the source). -/
def generateReactComponentResponse (_prompt : List Char) (isChinesePrompt : Bool) :
    List Char :=
  if isChinesePrompt then reactZhT1.data else reactEnT1.data

/-- `generateGenericCodeResponse`: interpolates the prompt. -/
def generateGenericCodeResponse (prompt : List Char) (isChinesePrompt : Bool) :
    List Char :=
  if isChinesePrompt then genericCodeZhT1.data ++ prompt ++ genericCodeZhT2.data
  else genericCodeEnT1.data ++ prompt ++ genericCodeEnT2.data

/-- `generateSpecificCodeResponse`: dispatch on lowercased-prompt
substrings to the dedicated algorithm templates. -/
def generateSpecificCodeResponse (prompt : List Char) (isChinesePrompt : Bool) :
    List Char :=
  let lowerPrompt := toLowerList prompt
  if hasSub lowerPrompt "冒泡排序".data || hasSub lowerPrompt "bubble sort".data then
    generateBubbleSortResponse prompt isChinesePrompt
  else if hasSub lowerPrompt "快速排序".data || hasSub lowerPrompt "quick sort".data then
    generateQuickSortResponse prompt isChinesePrompt
  else if hasSub lowerPrompt "斐波那契".data || hasSub lowerPrompt "fibonacci".data then
    generateFibonacciResponse prompt isChinesePrompt
  else if (hasSub lowerPrompt "react".data || hasSub lowerPrompt "nextjs".data ||
      hasSub lowerPrompt "next.js".data) &&
      (hasSub lowerPrompt "组件".data || hasSub lowerPrompt "component".data) then
    generateReactComponentResponse prompt isChinesePrompt
  else generateGenericCodeResponse prompt isChinesePrompt

/-- `generateScriptResponse`: the source computes a script type but its
`scripts` table only contains `backup`, which is always returned. -/
def generateScriptResponse (_scriptType : String) (isChinese : Bool) : List Char :=
  if isChinese then scriptBackupZhT1.data else scriptBackupEnT1.data

/-- `generateCodeResponse`. -/
def generateCodeResponse (isChinese : Bool) : List Char :=
  if isChinese then codeRespZhT1.data else codeRespEnT1.data

/-- `generateIntelligentResponse` (part_005): substring dispatch over the
prompt — script requests, specific programming requests, code/debug,
`who are you`, then the general template interpolating the prompt. -/
def generateIntelligentResponse (prompt : List Char) : List Char :=
  let isChinesePrompt := isChineseTest prompt
  let lowerPrompt := toLowerList prompt
  if hasSub lowerPrompt "script".data || hasSub prompt "/script".data then
    let scriptType : String :=
      if hasSub lowerPrompt "backup".data then "backup"
      else if hasSub lowerPrompt "install".data then "install"
      else if hasSub lowerPrompt "deploy".data then "deploy"
      else "general"
    generateScriptResponse scriptType isChinesePrompt
  else if isSpecificProgrammingRequest prompt then
    generateSpecificCodeResponse prompt isChinesePrompt
  else if hasSub lowerPrompt "code".data || hasSub lowerPrompt "debug".data then
    generateCodeResponse isChinesePrompt
  else if hasSub prompt "你是谁".data || hasSub lowerPrompt "who are you".data then
    if isChinesePrompt then whoAmIZhT1.data else whoAmIEnT1.data
  else if isChinesePrompt then
    generalZhT1.data ++ prompt ++ generalZhT2.data
  else
    generalEnT1.data ++ prompt ++ generalEnT2.data

/-- `generateSearchFallbackResponse` (part_005): the AI-tools variant when
the lowercased prompt mentions ai工具/ai tool, otherwise the generic
search-unavailable variant; both interpolate the prompt and the network
condition. -/
def generateSearchFallbackResponse (prompt : List Char) (isNetworkError : Bool) :
    List Char :=
  let isChinesePrompt := isChineseTest prompt
  let lowerPrompt := toLowerList prompt
  if hasSub lowerPrompt "ai工具".data || hasSub lowerPrompt "ai tool".data then
    if isChinesePrompt then
      aiToolsZhT1.data ++ prompt ++ aiToolsZhT2.data ++
        (if isNetworkError then aiToolsZhNet3.data else aiToolsZhOff3.data) ++
        aiToolsZhT4.data ++
        (if isNetworkError then aiToolsZhNet5.data else aiToolsZhOff5.data)
    else
      aiToolsEnT1.data ++ prompt ++ aiToolsEnT2.data ++
        (if isNetworkError then aiToolsEnNet3.data else aiToolsEnOff3.data) ++
        aiToolsEnT4.data ++
        (if isNetworkError then aiToolsEnNet5.data else aiToolsEnOff5.data)
  else if isChinesePrompt then
    searchGenZhT1.data ++
      (if isNetworkError then searchGenZhNet2.data else searchGenZhOff2.data) ++
      searchGenZhT3.data ++ prompt ++ searchGenZhT4.data
  else
    searchGenEnT1.data ++
      (if isNetworkError then searchGenEnNet2.data else searchGenEnOff2.data) ++
      searchGenEnT3.data ++ prompt ++ searchGenEnT4.data

end GeminiServiceP5

/-- Outcome of the `generativeModel.generateContent` SDK call. -/
inductive SdkOutcome where
  | ok (text : List Char)
  | fail (errorMessage : List Char)
deriving Repr, DecidableEq

/-- Inner try/catch of the part_005 `generateText`, once an API key is
available: a successful SDK call yields the text with its token estimate;
a failed call is caught, and a search-fallback or intelligent template
response is returned as a normal `GeminiResponse` (`fetch failed` in the
error message marks a network error for the search fallback). -/
def GeminiServiceP5.generateText (prompt : List Char) (outcome : SdkOutcome) :
    GeminiResponse :=
  match outcome with
  | SdkOutcome.ok text =>
      { content := text, tokensUsed := GeminiService.estimateTokens (prompt ++ text) }
  | SdkOutcome.fail errorMessage =>
      if GeminiServiceP5.needsWebSearch prompt then
        let intelligentResponse := GeminiServiceP5.generateSearchFallbackResponse
          prompt (hasSub errorMessage "fetch failed".data)
        { content := intelligentResponse,
          tokensUsed := GeminiService.estimateTokens (prompt ++ intelligentResponse) }
      else
        let intelligentResponse := GeminiServiceP5.generateIntelligentResponse prompt
        { content := intelligentResponse,
          tokensUsed := GeminiService.estimateTokens (prompt ++ intelligentResponse) }

/-- `generateText` of src/services/gemini.ts: no inner catch — an SDK
failure reaches the outer catch, which rethrows
`Gemini API error: <message>`. -/
def GeminiService.generateTextStrict (prompt : List Char) (outcome : SdkOutcome) :
    Except (List Char) GeminiResponse :=
  match outcome with
  | SdkOutcome.ok text =>
      Except.ok { content := text,
                  tokensUsed := GeminiService.estimateTokens (prompt ++ text) }
  | SdkOutcome.fail errorMessage =>
      Except.error ("Gemini API error: ".data ++ errorMessage)

/-! ## List helpers shared by the rate-limiter proofs -/

section ListHelpers

variable {α : Type _}

theorem map_eq_self_of_filter_nil (q : α → Bool) (f : α → α)
    (hfix : ∀ a, q a = false → f a = a) :
    ∀ l : List α, l.filter q = [] → l.map f = l := by
  intro l
  induction l with
  | nil => intro _; rfl
  | cons a t ih =>
    intro h
    by_cases ha : q a = true
    · simp [List.filter_cons, ha] at h
    · have ha' : q a = false := by simpa using ha
      simp only [List.filter_cons, ha', Bool.false_eq_true, if_false] at h
      simp [hfix a ha', ih h]

theorem filter_eq_singleton_split (q : α → Bool) :
    ∀ (l : List α) (e : α), l.filter q = [e] →
      ∃ m₁ m₂, l = m₁ ++ e :: m₂ ∧ m₁.filter q = [] ∧ m₂.filter q = [] ∧
        q e = true := by
  intro l
  induction l with
  | nil => intro e h; simp at h
  | cons a t ih =>
    intro e h
    rw [List.filter_cons] at h
    by_cases ha : q a = true
    · rw [if_pos ha] at h
      obtain ⟨rfl, ht⟩ : a = e ∧ t.filter q = [] :=
        ⟨(List.cons_eq_cons.mp h).1, (List.cons_eq_cons.mp h).2⟩
      exact ⟨[], t, rfl, rfl, ht, ha⟩
    · rw [if_neg ha] at h
      obtain ⟨m₁, m₂, rfl, h₁, h₂, he⟩ := ih e h
      refine ⟨a :: m₁, m₂, rfl, ?_, h₂, he⟩
      rw [List.filter_cons, if_neg ha, h₁]

theorem map_split_of_filter_nil (q : α → Bool) (f : α → α)
    (hfix : ∀ a, q a = false → f a = a) (m₁ m₂ : List α) (e : α)
    (h₁ : m₁.filter q = []) (h₂ : m₂.filter q = []) :
    (m₁ ++ e :: m₂).map f = m₁ ++ f e :: m₂ := by
  rw [List.map_append, List.map_cons,
    map_eq_self_of_filter_nil q f hfix m₁ h₁,
    map_eq_self_of_filter_nil q f hfix m₂ h₂]

theorem append_cons_eq_singleton {x y : List α} {a b : α}
    (h : x ++ a :: y = [b]) : x = [] ∧ y = [] ∧ a = b := by
  cases x with
  | nil =>
    simp only [List.nil_append] at h
    exact ⟨rfl, (List.cons_eq_cons.mp h).2, (List.cons_eq_cons.mp h).1⟩
  | cons c t =>
    simp only [List.cons_append] at h
    have := (List.cons_eq_cons.mp h).2
    exact absurd this (by simp)

theorem filter_not_map (q : α → Bool) (f : α → α)
    (hfix : ∀ a, q a = false → f a = a)
    (hkeep : ∀ a, q a = true → q (f a) = true) :
    ∀ l : List α,
      (l.map f).filter (fun x => !q x) = l.filter (fun x => !q x) := by
  intro l
  induction l with
  | nil => rfl
  | cons a t ih =>
    by_cases ha : q a = true
    · simp [List.filter_cons, ha, hkeep a ha, ih]
    · have ha' : q a = false := by simpa using ha
      simp [List.filter_cons, ha', hfix a ha', ih]

end ListHelpers

/-! ## Behaviour of the two recordUsage implementations -/

theorem RateLimitModel.singleRowD_of_head {l : List LimitsRow} {r : LimitsRow}
    (h : l.head? = some r) : r ∈ l := by
  cases l with
  | nil => simp at h
  | cons a t =>
    simp only [List.head?_cons, Option.some.injEq] at h
    exact h ▸ List.mem_cons_self a t

theorem SupabaseRateLimitModel.singleRow_eq_some {found : List RateLimitsRow}
    {r : RateLimitsRow} (h : SupabaseRateLimitModel.singleRow found = some r) :
    found = [r] := by
  match found, h with
  | [x], h =>
    simp only [SupabaseRateLimitModel.singleRow, Option.some.injEq] at h
    exact h ▸ rfl

theorem RateLimitModel.recordUsage_insert (rows : List LimitsRow) (u : String)
    (tok now : Int)
    (hf : rows.filter (RateLimitModel.inBucket u (hourWindowStart now)) = []) :
    RateLimitModel.recordUsage rows u tok now =
      rows ++ [⟨u, hourWindowStart now, 1, tok⟩] := by
  simp [RateLimitModel.recordUsage, hf]

theorem RateLimitModel.recordUsage_match (rows : List LimitsRow) (u : String)
    (tok now : Int) (hf : rows.filter (RateLimitModel.inBucket u (hourWindowStart now)) ≠ []) :
    RateLimitModel.recordUsage rows u tok now =
      rows.map (fun r =>
        if RateLimitModel.inBucket u (hourWindowStart now) r then
          RateLimitModel.bumpRow tok r
        else r) := by
  have hlen : ((rows.filter (RateLimitModel.inBucket u (hourWindowStart now))).length == 0)
      = false := by
    rcases h' : rows.filter (RateLimitModel.inBucket u (hourWindowStart now)) with _ | ⟨a, t⟩
    · exact absurd h' hf
    · rfl
  simp [RateLimitModel.recordUsage, hlen]

theorem RateLimitModel.recordUsage_bucket (rows : List LimitsRow) (u : String)
    (tok now : Int) (r : LimitsRow)
    (hf : rows.filter (RateLimitModel.inBucket u (hourWindowStart now)) = [r]) :
    (RateLimitModel.recordUsage rows u tok now).filter
        (RateLimitModel.inBucket u (hourWindowStart now)) =
      [RateLimitModel.bumpRow tok r] := by
  rw [RateLimitModel.recordUsage_match rows u tok now (by simp [hf])]
  obtain ⟨m₁, m₂, heq, h₁, h₂, hq⟩ :=
    filter_eq_singleton_split (RateLimitModel.inBucket u (hourWindowStart now)) rows r hf
  subst heq
  rw [map_split_of_filter_nil (RateLimitModel.inBucket u (hourWindowStart now)) _
    (fun a ha => by simp [ha]) m₁ m₂ r h₁ h₂]
  have hkeep : RateLimitModel.inBucket u (hourWindowStart now)
      (RateLimitModel.bumpRow tok r) = true := hq
  simp [List.filter_append, List.filter_cons, hq, hkeep, h₁, h₂]

theorem RateLimitModel.recordUsage_other_buckets (rows : List LimitsRow)
    (u : String) (tok now : Int) :
    (RateLimitModel.recordUsage rows u tok now).filter
        (fun x => !(RateLimitModel.inBucket u (hourWindowStart now) x)) =
      rows.filter (fun x => !(RateLimitModel.inBucket u (hourWindowStart now) x)) := by
  by_cases hf : rows.filter (RateLimitModel.inBucket u (hourWindowStart now)) = []
  · rw [RateLimitModel.recordUsage_insert rows u tok now hf, List.filter_append]
    have hnew : RateLimitModel.inBucket u (hourWindowStart now)
        ⟨u, hourWindowStart now, 1, tok⟩ = true := by
      simp [RateLimitModel.inBucket]
    simp [List.filter_cons, hnew]
  · rw [RateLimitModel.recordUsage_match rows u tok now hf]
    exact filter_not_map (RateLimitModel.inBucket u (hourWindowStart now)) _
      (fun a ha => by simp [ha]) (fun a ha => by simp only [if_pos ha]; exact ha) rows

theorem SupabaseRateLimitModel.recordUsage_insert_supabase (rows : List RateLimitsRow)
    (u : String) (tok now fid : Int)
    (hf : rows.filter (SupabaseRateLimitModel.inBucket u (hourWindowStart now)) = []) :
    SupabaseRateLimitModel.recordUsage rows u tok now fid =
      rows ++ [⟨fid, u, hourWindowStart now, some 1, some tok⟩] := by
  simp [SupabaseRateLimitModel.recordUsage, hf, SupabaseRateLimitModel.singleRow]

theorem SupabaseRateLimitModel.recordUsage_bucket_supabase (rows : List RateLimitsRow)
    (u : String) (tok now fid : Int) (e : RateLimitsRow)
    (hf : rows.filter (SupabaseRateLimitModel.inBucket u (hourWindowStart now)) = [e])
    (hid : rows.filter (fun x => x.id == e.id) = [e]) :
    (SupabaseRateLimitModel.recordUsage rows u tok now fid).filter
        (SupabaseRateLimitModel.inBucket u (hourWindowStart now)) =
      [SupabaseRateLimitModel.setCounts e tok e] ∧
    (SupabaseRateLimitModel.recordUsage rows u tok now fid).filter
        (fun x => !(SupabaseRateLimitModel.inBucket u (hourWindowStart now) x)) =
      rows.filter
        (fun x => !(SupabaseRateLimitModel.inBucket u (hourWindowStart now) x)) := by
  have hrec : SupabaseRateLimitModel.recordUsage rows u tok now fid =
      rows.map (fun r => if r.id == e.id then SupabaseRateLimitModel.setCounts e tok r
        else r) := by
    simp [SupabaseRateLimitModel.recordUsage, hf, SupabaseRateLimitModel.singleRow]
  obtain ⟨m₁, m₂, heq, h₁, h₂, _⟩ :=
    filter_eq_singleton_split (fun x => x.id == e.id) rows e hid
  have hq : SupabaseRateLimitModel.inBucket u (hourWindowStart now) e = true := by
    have : e ∈ rows.filter (SupabaseRateLimitModel.inBucket u (hourWindowStart now)) := by
      rw [hf]; exact List.mem_singleton.mpr rfl
    exact (List.mem_filter.mp this).2
  have hmap : rows.map (fun r => if r.id == e.id then
      SupabaseRateLimitModel.setCounts e tok r else r) = m₁ ++
        SupabaseRateLimitModel.setCounts e tok e :: m₂ := by
    rw [heq]
    have hm := map_split_of_filter_nil (fun x => x.id == e.id)
      (fun r => if r.id == e.id then SupabaseRateLimitModel.setCounts e tok r else r)
      (fun a ha => by simp [ha]) m₁ m₂ e h₁ h₂
    simpa using hm
  have hfsplit : m₁.filter (SupabaseRateLimitModel.inBucket u (hourWindowStart now)) = [] ∧
      m₂.filter (SupabaseRateLimitModel.inBucket u (hourWindowStart now)) = [] := by
    have := hf
    rw [heq, List.filter_append, List.filter_cons, if_pos hq] at this
    obtain ⟨ha, hb, _⟩ := append_cons_eq_singleton this
    exact ⟨ha, by simpa using hb⟩
  have hqset : SupabaseRateLimitModel.inBucket u (hourWindowStart now)
      (SupabaseRateLimitModel.setCounts e tok e) = true := hq
  constructor
  · rw [hrec, hmap, List.filter_append, List.filter_cons, if_pos hqset,
      hfsplit.1, hfsplit.2]
    rfl
  · rw [hrec, hmap, heq, List.filter_append, List.filter_append,
      List.filter_cons, List.filter_cons]
    have h1 : (!SupabaseRateLimitModel.inBucket u (hourWindowStart now)
        (SupabaseRateLimitModel.setCounts e tok e)) = false := by simp [hqset]
    have h2 : (!SupabaseRateLimitModel.inBucket u (hourWindowStart now) e) = false := by
      simp [hq]
    simp [h1, h2]

/-! ## Claims C1-C3: the rate limiter -/

/-- C1: in both `RateLimitModel` and `SupabaseRateLimitModel`, when exactly
one rate-limit row of the user lies inside the lookup window, `checkLimit`
allows the request exactly when the stored request count is strictly below
`maxRequests` and the stored token count is strictly below `maxTokens`; when
no row is found it allows with `remaining = maxRequests - 1` and
`tokensRemaining = maxTokens` and leaves the table unchanged. -/
theorem claim_C1 :
    ∀ (drows : List LimitsRow) (srows : List RateLimitsRow) (userId : String)
      (windowMinutes maxRequests maxTokens now : Int),
      (∀ r, drows.filter
            (RateLimitModel.inWindow userId (now - windowMinutes * 60 * 1000)) = [r] →
          ((RateLimitModel.checkLimit drows userId windowMinutes maxRequests
              maxTokens now).1.allowed = true ↔
            (r.req_count < maxRequests ∧ r.token_count < maxTokens))) ∧
      (∀ r, srows.filter
            (SupabaseRateLimitModel.inWindow userId (now - windowMinutes * 60 * 1000)) = [r] →
          ((SupabaseRateLimitModel.checkLimit srows userId windowMinutes maxRequests
              maxTokens now).1.allowed = true ↔
            (r.request_count.getD 0 < maxRequests ∧ r.token_count.getD 0 < maxTokens))) ∧
      (drows.filter (RateLimitModel.inWindow userId (now - windowMinutes * 60 * 1000)) = [] →
        RateLimitModel.checkLimit drows userId windowMinutes maxRequests maxTokens now =
          (⟨true, maxRequests - 1, maxTokens⟩, drows)) ∧
      (srows.filter (SupabaseRateLimitModel.inWindow userId (now - windowMinutes * 60 * 1000)) = [] →
        SupabaseRateLimitModel.checkLimit srows userId windowMinutes maxRequests maxTokens now =
          (⟨true, maxRequests - 1, maxTokens⟩, srows)) := by
  intro drows srows userId wm mr mt now
  refine ⟨?_, ?_, ?_, ?_⟩
  · intro r hf
    simp [RateLimitModel.checkLimit, hf, Bool.and_eq_true, decide_eq_true_eq]
  · intro r hf
    simp [SupabaseRateLimitModel.checkLimit, hf, SupabaseRateLimitModel.singleRow,
      Bool.and_eq_true, decide_eq_true_eq]
  · intro hf
    simp [RateLimitModel.checkLimit, hf]
  · intro hf
    simp [SupabaseRateLimitModel.checkLimit, hf, SupabaseRateLimitModel.singleRow]

/-- Witness for C1 at concrete inputs: one stored row below both thresholds
allows the request, and an empty table yields the default allowance. -/
theorem claim_C1_witness :
    (RateLimitModel.checkLimit [⟨"u", 0, 5, 10⟩] "u" 60 100 10000 1000).1.allowed = true ∧
    (SupabaseRateLimitModel.checkLimit [] "u" 60 100 10000 1000).1 =
      ⟨true, 99, 10000⟩ := by
  constructor
  · exact ((claim_C1 [⟨"u", 0, 5, 10⟩] [] "u" 60 100 10000 1000).1
      ⟨"u", 0, 5, 10⟩ (by decide)).mpr (by decide)
  · have h := (claim_C1 [] ([] : List RateLimitsRow) "u" 60 100 10000 1000).2.2.2
      (by decide)
    rw [h]
    decide

/-- C2 fails on the code: at `now = 3600000` (an exact hour boundary) with a
single stored row at `window_start = 0`, there is no row whose window start
equals the current hour-aligned start `3600000`, yet both `checkLimit`
implementations compare thresholds against the old row and deny the
request (the claim's reading would find no row and allow it). -/
theorem claim_C2_counterexample :
    (RateLimitModel.checkLimit [⟨"u", 0, 100, 0⟩] "u" 60 100 10000 3600000).1.allowed
      = false ∧
    (SupabaseRateLimitModel.checkLimit [⟨1, "u", 0, some 100, some 0⟩] "u" 60 100
        10000 3600000).1.allowed = false ∧
    ([(⟨"u", 0, 100, 0⟩ : LimitsRow)].filter
        (RateLimitModel.inBucket "u" (hourWindowStart 3600000))) = [] ∧
    ([(⟨1, "u", 0, some 100, some 0⟩ : RateLimitsRow)].filter
        (SupabaseRateLimitModel.inBucket "u" (hourWindowStart 3600000))) = [] ∧
    hourWindowStart 3600000 = 3600000 := by
  decide

/-- C2 amended: `checkLimit` computes `windowStart = now - windowMinutes *
60 * 1000` (a rolling lookback, not the hour-aligned bucket start) and
compares thresholds against a row of the user whose `window_start` is
greater than or equal to that bound (Drizzle: the first such row; Supabase:
the unique such row); that row's `window_start` need not equal the current
hour's start. -/
theorem claim_C2_amended :
    ∀ (drows : List LimitsRow) (srows : List RateLimitsRow) (userId : String)
      (windowMinutes maxRequests maxTokens now : Int),
      (∀ r, (drows.filter (RateLimitModel.inWindow userId
              (now - windowMinutes * 60 * 1000))).head? = some r →
          r ∈ drows ∧ r.user_id = userId ∧
            now - windowMinutes * 60 * 1000 ≤ r.window_start ∧
            (RateLimitModel.checkLimit drows userId windowMinutes maxRequests
                maxTokens now).1 =
              ⟨decide (r.req_count < maxRequests) && decide (r.token_count < maxTokens),
               max 0 (maxRequests - r.req_count), max 0 (maxTokens - r.token_count)⟩) ∧
      (∀ r, SupabaseRateLimitModel.singleRow
            (srows.filter (SupabaseRateLimitModel.inWindow userId
              (now - windowMinutes * 60 * 1000))) = some r →
          r ∈ srows ∧ r.user_id = userId ∧
            now - windowMinutes * 60 * 1000 ≤ r.window_start ∧
            (SupabaseRateLimitModel.checkLimit srows userId windowMinutes maxRequests
                maxTokens now).1 =
              ⟨decide (r.request_count.getD 0 < maxRequests) &&
                 decide (r.token_count.getD 0 < maxTokens),
               max 0 (maxRequests - r.request_count.getD 0),
               max 0 (maxTokens - r.token_count.getD 0)⟩) := by
  intro drows srows userId wm mr mt now
  constructor
  · intro r hh
    have hmem : r ∈ drows.filter (RateLimitModel.inWindow userId
        (now - wm * 60 * 1000)) := RateLimitModel.singleRowD_of_head hh
    have hw := (List.mem_filter.mp hmem).2
    rw [RateLimitModel.inWindow, Bool.and_eq_true, beq_iff_eq,
      decide_eq_true_eq] at hw
    refine ⟨(List.mem_filter.mp hmem).1, hw.1, hw.2, ?_⟩
    simp [RateLimitModel.checkLimit, hh]
  · intro r hh
    have hf := SupabaseRateLimitModel.singleRow_eq_some hh
    have hmem : r ∈ srows.filter (SupabaseRateLimitModel.inWindow userId
        (now - wm * 60 * 1000)) := by rw [hf]; exact List.mem_singleton.mpr rfl
    have hw := (List.mem_filter.mp hmem).2
    rw [SupabaseRateLimitModel.inWindow, Bool.and_eq_true, beq_iff_eq,
      decide_eq_true_eq] at hw
    refine ⟨(List.mem_filter.mp hmem).1, hw.1, hw.2, ?_⟩
    simp [SupabaseRateLimitModel.checkLimit, hf, SupabaseRateLimitModel.singleRow]

/-- Witness for the amended C2 at a concrete input: the compared row is the
stored one, which lies at the rolling bound but not at the hour start. -/
theorem claim_C2_amended_witness :
    (⟨"u", 0, 100, 0⟩ : LimitsRow) ∈ [(⟨"u", 0, 100, 0⟩ : LimitsRow)] ∧
    (RateLimitModel.checkLimit [⟨"u", 0, 100, 0⟩] "u" 60 100 10000 3600000).1 =
      ⟨decide ((100 : Int) < 100) && decide ((0 : Int) < 10000),
       max 0 (100 - 100), max 0 (10000 - 0)⟩ := by
  have h := (claim_C2_amended [⟨"u", 0, 100, 0⟩] [] "u" 60 100 10000 3600000).1
    ⟨"u", 0, 100, 0⟩ (by decide)
  exact ⟨h.1, h.2.2.2⟩

/-- C3: both `recordUsage` implementations are fixed-window counters: the
usage of a call at time `now` goes to the bucket `now - (now % 1 hour)`
(which is hour-aligned and contains `now`); an existing row of that exact
(user, bucket) pair is incremented by one request and `tokensUsed` tokens,
otherwise a fresh row with counts `1` and `tokensUsed` is inserted; rows of
other buckets are never modified. -/
theorem claim_C3 :
    ∀ (drows : List LimitsRow) (srows : List RateLimitsRow) (userId : String)
      (tokensUsed now freshId : Int),
      hourWindowStart now = now - now % (60 * 60 * 1000) ∧
      hourWindowStart now % (60 * 60 * 1000) = 0 ∧
      hourWindowStart now ≤ now ∧
      now < hourWindowStart now + 60 * 60 * 1000 ∧
      (drows.filter (RateLimitModel.inBucket userId (hourWindowStart now)) = [] →
        RateLimitModel.recordUsage drows userId tokensUsed now =
          drows ++ [⟨userId, hourWindowStart now, 1, tokensUsed⟩]) ∧
      (∀ r, drows.filter (RateLimitModel.inBucket userId (hourWindowStart now)) = [r] →
        (RateLimitModel.recordUsage drows userId tokensUsed now).filter
            (RateLimitModel.inBucket userId (hourWindowStart now)) =
          [{ r with req_count := r.req_count + 1,
                    token_count := r.token_count + tokensUsed }]) ∧
      ((RateLimitModel.recordUsage drows userId tokensUsed now).filter
          (fun x => !(RateLimitModel.inBucket userId (hourWindowStart now) x)) =
        drows.filter (fun x => !(RateLimitModel.inBucket userId (hourWindowStart now) x))) ∧
      (srows.filter (SupabaseRateLimitModel.inBucket userId (hourWindowStart now)) = [] →
        SupabaseRateLimitModel.recordUsage srows userId tokensUsed now freshId =
          srows ++ [⟨freshId, userId, hourWindowStart now, some 1, some tokensUsed⟩]) ∧
      (∀ e, srows.filter (SupabaseRateLimitModel.inBucket userId (hourWindowStart now)) = [e] →
        srows.filter (fun x => x.id == e.id) = [e] →
        (SupabaseRateLimitModel.recordUsage srows userId tokensUsed now freshId).filter
            (SupabaseRateLimitModel.inBucket userId (hourWindowStart now)) =
          [{ e with request_count := some (e.request_count.getD 0 + 1),
                    token_count := some (e.token_count.getD 0 + tokensUsed) }] ∧
        (SupabaseRateLimitModel.recordUsage srows userId tokensUsed now freshId).filter
            (fun x => !(SupabaseRateLimitModel.inBucket userId (hourWindowStart now) x)) =
          srows.filter
            (fun x => !(SupabaseRateLimitModel.inBucket userId (hourWindowStart now) x))) := by
  intro drows srows userId tokensUsed now freshId
  refine ⟨rfl, ?_, ?_, ?_, ?_, ?_, ?_, ?_, ?_⟩
  · simp only [hourWindowStart]
    omega
  · simp only [hourWindowStart]
    omega
  · simp only [hourWindowStart]
    omega
  · exact RateLimitModel.recordUsage_insert drows userId tokensUsed now
  · intro r hf
    exact RateLimitModel.recordUsage_bucket drows userId tokensUsed now r hf
  · exact RateLimitModel.recordUsage_other_buckets drows userId tokensUsed now
  · exact SupabaseRateLimitModel.recordUsage_insert_supabase srows userId tokensUsed now freshId
  · intro e hf hid
    exact SupabaseRateLimitModel.recordUsage_bucket_supabase srows userId tokensUsed now freshId e hf hid

/-- Witness for C3 at concrete inputs: an existing bucket row is bumped by
one request and seven tokens; with an empty table a fresh row is inserted. -/
theorem claim_C3_witness :
    (RateLimitModel.recordUsage [⟨"u", 0, 2, 30⟩] "u" 7 1800000).filter
        (RateLimitModel.inBucket "u" (hourWindowStart 1800000)) =
      [⟨"u", 0, 3, 37⟩] ∧
    SupabaseRateLimitModel.recordUsage [] "u" 7 1800000 5 =
      [⟨5, "u", 0, some 1, some 7⟩] := by
  constructor
  · have h := (claim_C3 [⟨"u", 0, 2, 30⟩] [] "u" 7 1800000 5).2.2.2.2.2.1
      ⟨"u", 0, 2, 30⟩ (by decide)
    rw [h]
    decide
  · have h := (claim_C3 [] [] "u" 7 1800000 5).2.2.2.2.2.2.2.1 (by decide)
    rw [h]
    decide

/-! ## Hex and split lemmas for the encryption claims -/

theorem hexDigit_ne_colon {n : Nat} (h : n < 16) : hexDigit n ≠ ':' := by
  interval_cases n <;> decide

theorem colon_not_mem_hexOfBytes :
    ∀ bs : List Nat, (∀ b ∈ bs, b < 256) → ':' ∉ hexOfBytes bs := by
  intro bs
  induction bs with
  | nil => intro _ h; simp [hexOfBytes] at h
  | cons b t ih =>
    intro hb h
    have hb256 : b < 256 := hb b (List.mem_cons_self b t)
    have h1 : b / 16 < 16 := by omega
    have h2 : b % 16 < 16 := by omega
    rw [hexOfBytes] at h
    simp only [List.mem_cons] at h
    rcases h with h | h | h
    · exact hexDigit_ne_colon h1 h.symm
    · exact hexDigit_ne_colon h2 h.symm
    · exact ih (fun x hx => hb x (List.mem_cons_of_mem b hx)) h

theorem splitOnChar_no_sep (sep : Char) :
    ∀ s : List Char, sep ∉ s → splitOnChar sep s = [s] := by
  intro s
  induction s with
  | nil => intro _; rfl
  | cons c t ih =>
    intro h
    have hc : (c == sep) = false := by
      simp only [beq_eq_false_iff_ne]
      intro hcs
      exact h (hcs ▸ List.mem_cons_self c t)
    rw [splitOnChar, if_neg (by simp [hc]), ih (fun hm => h (List.mem_cons_of_mem c hm))]

theorem splitOnChar_append (sep : Char) :
    ∀ (a rest : List Char), sep ∉ a →
      splitOnChar sep (a ++ sep :: rest) = a :: splitOnChar sep rest := by
  intro a
  induction a with
  | nil =>
    intro rest _
    simp only [List.nil_append]
    rw [splitOnChar, if_pos (by simp)]
  | cons c t ih =>
    intro rest h
    have hc : (c == sep) = false := by
      simp only [beq_eq_false_iff_ne]
      intro hcs
      exact h (hcs ▸ List.mem_cons_self c t)
    rw [List.cons_append, splitOnChar, if_neg (by simp [hc]),
      ih rest (fun hm => h (List.mem_cons_of_mem c hm))]

theorem hexVal_hexDigit {n : Nat} (h : n < 16) : hexVal (hexDigit n) = n := by
  interval_cases n <;> decide

theorem bytesOfHex_hexOfBytes :
    ∀ bs : List Nat, (∀ b ∈ bs, b < 256) → bytesOfHex (hexOfBytes bs) = bs := by
  intro bs
  induction bs with
  | nil => intro _; rfl
  | cons b t ih =>
    intro hb
    have hb256 : b < 256 := hb b (List.mem_cons_self b t)
    rw [hexOfBytes, bytesOfHex, hexVal_hexDigit (by omega : b / 16 < 16),
      hexVal_hexDigit (by omega : b % 16 < 16),
      ih (fun x hx => hb x (List.mem_cons_of_mem b hx))]
    congr 1
    omega

/-- Splitting the three-field output of `encrypt` recovers the fields. -/
theorem splitOnChar_encrypt (cipherRun : List Char → List Nat × List Nat)
    (iv : List Nat) (text : List Char)
    (hiv : ∀ b ∈ iv, b < 256)
    (hct : ∀ b ∈ (cipherRun text).1, b < 256)
    (htag : ∀ b ∈ (cipherRun text).2, b < 256) :
    splitOnChar ':' (encrypt cipherRun iv text) =
      [hexOfBytes iv, hexOfBytes (cipherRun text).2,
        hexOfBytes (cipherRun text).1] := by
  show splitOnChar ':' (hexOfBytes iv ++ [':'] ++ hexOfBytes (cipherRun text).2
    ++ [':'] ++ hexOfBytes (cipherRun text).1) = _
  have hassoc : hexOfBytes iv ++ [':'] ++ hexOfBytes (cipherRun text).2
      ++ [':'] ++ hexOfBytes (cipherRun text).1 =
      hexOfBytes iv ++ ':' :: (hexOfBytes (cipherRun text).2
        ++ ':' :: hexOfBytes (cipherRun text).1) := by
    simp
  rw [hassoc, splitOnChar_append ':' _ _ (colon_not_mem_hexOfBytes iv hiv),
    splitOnChar_append ':' _ _ (colon_not_mem_hexOfBytes _ htag),
    splitOnChar_no_sep ':' _ (colon_not_mem_hexOfBytes _ hct)]

/-! ## Claims C5-C7: token estimation, cost table, trial mode -/

theorem ceil_div_four (n : ℤ) : ⌈(n : ℚ) / 4⌉ = (n + 3) / 4 := by
  have h4 : (0 : ℚ) < 4 := by norm_num
  rw [Int.ceil_eq_iff]
  constructor
  · rw [lt_div_iff₀ h4]
    have h : ((n + 3) / 4 : ℤ) * 4 - 3 ≤ n := by omega
    have hq : (((n + 3) / 4 : ℤ) : ℚ) * 4 - 3 ≤ (n : ℚ) := by exact_mod_cast h
    linarith
  · rw [div_le_iff₀ h4]
    have h : n ≤ ((n + 3) / 4 : ℤ) * 4 := by omega
    exact_mod_cast h

theorem ceil_div_four_nat (m : ℕ) : ⌈(m : ℚ) / 4⌉ = ((m : ℤ) + 3) / 4 := by
  have h := ceil_div_four (m : ℤ)
  rwa [Int.cast_natCast] at h

/-- C5: the success path of `generateText` returns (and records) a token
count equal to `ceil((prompt + responseText).length / 4)`, which on
naturals is `(length + 3) / 4`. -/
theorem claim_C5 :
    ∀ prompt text : List Char,
      (GeminiService.generateTextOk prompt text).1.tokensUsed =
          ⌈(((prompt ++ text).length : ℚ)) / 4⌉ ∧
      (GeminiService.generateTextOk prompt text).2 =
          (GeminiService.generateTextOk prompt text).1.tokensUsed ∧
      (GeminiService.generateTextOk prompt text).1.tokensUsed =
          ((prompt.length : ℤ) + text.length + 3) / 4 := by
  intro prompt text
  refine ⟨rfl, rfl, ?_⟩
  show GeminiService.estimateTokens (prompt ++ text) = _
  rw [GeminiService.estimateTokens, ceil_div_four_nat]
  congr 1
  push_cast [List.length_append]
  ring

/-! Helper lemmas connecting the fraction pipeline to Mathlib's
floor/round on exact rationals. -/

theorem floor_intCast_div (n d : ℤ) (hd : 0 < d) :
    ⌊(n : ℚ) / (d : ℚ)⌋ = n / d := by
  rw [Int.floor_eq_iff]
  have hdq : (0 : ℚ) < (d : ℚ) := by exact_mod_cast hd
  have hdm := Int.ediv_add_emod n d
  have hr0 : 0 ≤ n % d := Int.emod_nonneg n (by omega)
  have hrd : n % d < d := Int.emod_lt_of_pos n hd
  have hcomm : d * (n / d) = (n / d) * d := mul_comm _ _
  constructor
  · rw [le_div_iff₀ hdq]
    exact_mod_cast (by linarith : (n / d) * d ≤ n)
  · rw [div_lt_iff₀ hdq]
    exact_mod_cast (by linarith : n < (n / d + 1) * d)

theorem jsRoundF_eq_round (a : ℤ × ℤ) (h : 0 < a.2) :
    jsRoundF a = round (toRat a) := by
  rw [round_eq, toRat]
  have key : (a.1 : ℚ) / (a.2 : ℚ) + 1 / 2 =
      ((2 * a.1 + a.2 : ℤ) : ℚ) / ((2 * a.2 : ℤ) : ℚ) := by
    have h2 : (a.2 : ℚ) ≠ 0 := by exact_mod_cast (by omega : a.2 ≠ 0)
    push_cast
    field_simp
    ring
  rw [key, floor_intCast_div _ _ (by omega), jsRoundF]

theorem roundDoublePosF_den_pos (a : ℤ × ℤ) : 0 < (roundDoublePosF a).2 := by
  rw [roundDoublePosF]
  split_ifs <;> positivity

theorem roundToDoubleF_den_pos (a : ℤ × ℤ) : 0 < (roundToDoubleF a).2 := by
  rw [roundToDoubleF]
  split_ifs
  · norm_num
  · exact roundDoublePosF_den_pos _
  · exact roundDoublePosF_den_pos _

/-- C6 fails on the code: the source multiplies IEEE-754 doubles, and the
double product can land on the other side of a half-integer boundary than
the exact product.  At (gemini-1.5-pro, t = 1160000) the program computes
the double 14.499999999999998 and persists `Math.round = 14` while the
claim's exact formula rounds 14.5 to 15; likewise (gemini-1.5-flash,
t = 1800000) persists 13 against the claim's 14. -/
theorem claim_C6_counterexample :
    (UsageStatsService.recordUsageRow "u" "gemini-1.5-pro" 1160000 "chat"
        0 0).estimated_cost = 14 ∧
    round ((100 : ℚ) * ((1160000 : ℚ) / 1000) *
        UsageStatsService.specRate "gemini-1.5-pro") = 15 ∧
    (UsageStatsService.recordUsageRow "u" "gemini-1.5-flash" 1800000 "chat"
        0 0).estimated_cost = 13 ∧
    round ((100 : ℚ) * ((1800000 : ℚ) / 1000) *
        UsageStatsService.specRate "gemini-1.5-flash") = 14 := by
  refine ⟨by decide, ?_, by decide, ?_⟩
  · have h : (100 : ℚ) * ((1160000 : ℚ) / 1000) *
        UsageStatsService.specRate "gemini-1.5-pro" = 29 / 2 := by
      rw [UsageStatsService.specRate, if_pos rfl]
      norm_num
    rw [h, round_eq, show (29 : ℚ) / 2 + 1 / 2 = ((15 : ℤ) : ℚ) by norm_num,
      Int.floor_intCast]
  · have h : (100 : ℚ) * ((1800000 : ℚ) / 1000) *
        UsageStatsService.specRate "gemini-1.5-flash" = 27 / 2 := by
      rw [UsageStatsService.specRate, if_neg (by decide), if_pos rfl]
      norm_num
    rw [h, round_eq, show (27 : ℚ) / 2 + 1 / 2 = ((14 : ℤ) : ℚ) by norm_num,
      Int.floor_intCast]

/-- C6 amended: `recordUsage` persists `estimated_cost` cents equal to
`Math.round(100 * (t / 1000) * rate(model))` evaluated in IEEE-754 double
arithmetic in the source's order — `rate(model)` the binary64 double
nearest the claim's table entry (0.000125 / 0.000075 / 0.0001, defaulting
to 0.0001), `t / 1000` and each product rounded to binary64 — which can
differ from the exact-rational formula (14 persisted against an exact 15
at gemini-1.5-pro, t = 1160000). -/
theorem claim_C6_amended :
    ∀ (userEmail model requestType : String) (t promptTokens completionTokens : Int),
      (UsageStatsService.recordUsageRow userEmail model t requestType
          promptTokens completionTokens).estimated_cost =
        round (toRat (dmulF (dmulF (ddivF (t, 1) (1000, 1))
          (roundToDoubleF (UsageStatsService.specRateF model))) (100, 1))) ∧
      toRat (UsageStatsService.specRateF model) = UsageStatsService.specRate model ∧
      UsageStatsService.specRate "gemini-1.5-pro" = 0.000125 ∧
      UsageStatsService.specRate "gemini-1.5-flash" = 0.000075 ∧
      UsageStatsService.specRate "gemini-pro" = 0.0001 ∧
      (model ≠ "gemini-1.5-pro" → model ≠ "gemini-1.5-flash" →
        model ≠ "gemini-pro" → UsageStatsService.specRate model = 0.0001) := by
  intro userEmail model requestType t promptTokens completionTokens
  refine ⟨?_, ?_,
    by rw [UsageStatsService.specRate, if_pos rfl]; norm_num,
    by rw [UsageStatsService.specRate, if_neg (by decide), if_pos rfl]; norm_num,
    by rw [UsageStatsService.specRate, if_neg (by decide), if_neg (by decide),
         if_pos rfl]; norm_num, ?_⟩
  · show UsageStatsService.estimatedCostCents model t = _
    have hrate : UsageStatsService.costPerToken model =
        roundToDoubleF (UsageStatsService.specRateF model) := by
      rw [UsageStatsService.costPerToken, UsageStatsService.specRateF]
      split_ifs <;> rfl
    rw [UsageStatsService.estimatedCostCents, UsageStatsService.calculateCost, hrate]
    exact jsRoundF_eq_round _ (roundToDoubleF_den_pos _)
  · rw [UsageStatsService.specRateF, UsageStatsService.specRate]
    split_ifs <;> norm_num [toRat]
  · intro h1 h2 h3
    simp only [UsageStatsService.specRate, h1, h2, h3, if_false, if_neg]
    norm_num

/-- Witness for the amended C6: an unknown model falls back to the 0.0001
rate, a concrete flash-model row persists the double-rounded cents of the
amended formula, and that value is 2 (agreeing with exact rounding there). -/
theorem claim_C6_amended_witness :
    UsageStatsService.specRate "claude" = 0.0001 ∧
    (UsageStatsService.recordUsageRow "u" "gemini-1.5-flash" 200000 "chat"
        0 0).estimated_cost =
      round (toRat (dmulF (dmulF (ddivF (200000, 1) (1000, 1))
        (roundToDoubleF (UsageStatsService.specRateF "gemini-1.5-flash")))
        (100, 1))) ∧
    (UsageStatsService.recordUsageRow "u" "gemini-1.5-flash" 200000 "chat"
        0 0).estimated_cost = 2 := by
  refine ⟨?_, ?_, by decide⟩
  · exact (claim_C6_amended "u" "claude" "chat" 0 0 0).2.2.2.2.2
      (by decide) (by decide) (by decide)
  · exact (claim_C6_amended "u" "gemini-1.5-flash" "chat" 200000 0 0).1

/-- C7: trial mode checks the rate limit over a 24*60 minute window with
50 requests and 1000 tokens per day, only allows gemini-1.5-flash, and all
three operations reject ids without the trial prefix. -/
theorem claim_C7 :
    ∀ (rows : List LimitsRow) (now : Int) (userId model : String)
      (estimatedTokens : Int),
      TRIAL_LIMITS.maxRequestsPerDay = 50 ∧
      TRIAL_LIMITS.maxTokensPerDay = 1000 ∧
      TRIAL_LIMITS.allowedModels = ["gemini-1.5-flash"] ∧
      (TrialModeService.isTrialUser userId = true →
        TrialModeService.canTrialUserMakeRequest rows now userId =
          Except.ok { allowed := (RateLimitModel.checkLimit rows userId (24 * 60) 50 1000 now).1.allowed,
                      remaining := (RateLimitModel.checkLimit rows userId (24 * 60) 50 1000 now).1.remaining,
                      tokensRemaining := (RateLimitModel.checkLimit rows userId (24 * 60) 50 1000 now).1.tokensRemaining,
                      reason := if (RateLimitModel.checkLimit rows userId (24 * 60) 50 1000 now).1.allowed then none
                        else some (if (RateLimitModel.checkLimit rows userId (24 * 60) 50 1000 now).1.remaining ≤ 0
                          then "Daily request limit exceeded"
                          else "Daily token limit exceeded") } ∧
        TrialModeService.getTrialUserStats rows now userId =
          Except.ok { requestsToday := 50 - (RateLimitModel.checkLimit rows userId (24 * 60) 50 1000 now).1.remaining,
                      tokensToday := 1000 - (RateLimitModel.checkLimit rows userId (24 * 60) 50 1000 now).1.tokensRemaining,
                      requestsRemaining := (RateLimitModel.checkLimit rows userId (24 * 60) 50 1000 now).1.remaining,
                      tokensRemaining := (RateLimitModel.checkLimit rows userId (24 * 60) 50 1000 now).1.tokensRemaining }) ∧
      (model ≠ "gemini-1.5-flash" →
        (TrialModeService.validateTrialRequest rows now userId model estimatedTokens).valid
          = false) ∧
      (TrialModeService.isTrialUser userId = false →
        TrialModeService.canTrialUserMakeRequest rows now userId =
          Except.error "Not a trial user" ∧
        TrialModeService.getTrialUserStats rows now userId =
          Except.error "Not a trial user" ∧
        TrialModeService.validateTrialRequest rows now userId model estimatedTokens =
          { valid := false, error := some "Not a trial user", limits := none }) := by
  intro rows now userId model estimatedTokens
  refine ⟨rfl, rfl, rfl, ?_, ?_, ?_⟩
  · intro ht
    constructor
    · simp only [TrialModeService.canTrialUserMakeRequest, ht, Bool.not_true,
        Bool.false_eq_true, if_false, TRIAL_LIMITS]
      cases h : (RateLimitModel.checkLimit rows userId (24 * 60) 50 1000 now).1.allowed <;>
        simp [h]
    · simp only [TrialModeService.getTrialUserStats, ht, Bool.not_true,
        Bool.false_eq_true, if_false, TRIAL_LIMITS]
  · intro hm
    by_cases ht : TrialModeService.isTrialUser userId = true
    · have hmod : TrialModeService.isModelAllowedForTrial model = false := by
        simp [TrialModeService.isModelAllowedForTrial, TRIAL_LIMITS, hm]
      simp [TrialModeService.validateTrialRequest, ht, hmod]
    · have ht' : TrialModeService.isTrialUser userId = false := by
        simpa using ht
      simp [TrialModeService.validateTrialRequest, ht']
  · intro hf
    refine ⟨?_, ?_, ?_⟩
    · simp [TrialModeService.canTrialUserMakeRequest, hf]
    · simp [TrialModeService.getTrialUserStats, hf]
    · simp [TrialModeService.validateTrialRequest, hf]

/-- Witness for C7 at concrete ids: a non-trial id is rejected by all three
operations, a trial id with a disallowed model is invalid, and a trial id on
an empty table gets the full daily allowance. -/
theorem claim_C7_witness :
    TrialModeService.canTrialUserMakeRequest [] 0 "bob" =
      Except.error "Not a trial user" ∧
    (TrialModeService.validateTrialRequest [] 0 "trial_a" "gemini-1.5-pro" 0).valid
      = false ∧
    TrialModeService.canTrialUserMakeRequest [] 0 "trial_a" =
      Except.ok { allowed := true, remaining := 49, tokensRemaining := 1000,
                  reason := none } := by
  refine ⟨?_, ?_, ?_⟩
  · exact ((claim_C7 [] 0 "bob" "m" 0).2.2.2.2.2 (by decide)).1
  · exact (claim_C7 [] 0 "trial_a" "gemini-1.5-pro" 0).2.2.2.2.1 (by decide)
  · have h := ((claim_C7 [] 0 "trial_a" "m" 0).2.2.2.1 (by decide)).1
    rw [h]
    exact congrArg Except.ok (by decide)

/-! ## Claim C8: SSE event stream shape -/

theorem eq_append_singleton_of_not_mem {α : Type _} {x : α} :
    ∀ (l pre suf : List α), x ∉ l → pre ++ x :: suf = l ++ [x] →
      pre = l ∧ suf = [] := by
  intro l
  induction l with
  | nil =>
    intro pre suf _ h
    cases pre with
    | nil =>
      simp only [List.nil_append] at h
      exact ⟨rfl, (List.cons_eq_cons.mp h).2⟩
    | cons p pt =>
      simp only [List.cons_append, List.nil_append] at h
      exact absurd (List.cons_eq_cons.mp h).2 (by simp)
  | cons a t ih =>
    intro pre suf hx h
    cases pre with
    | nil =>
      simp only [List.nil_append, List.cons_append] at h
      have h1 := (List.cons_eq_cons.mp h).1
      exact absurd (by rw [h1]; exact List.mem_cons_self a t) hx
    | cons p pt =>
      simp only [List.cons_append] at h
      obtain ⟨hpa, hrest⟩ := List.cons_eq_cons.mp h
      obtain ⟨hpre, hsuf⟩ := ih pt suf (fun hm => hx (List.mem_cons_of_mem a hm)) hrest
      exact ⟨by rw [hpa, hpre], hsuf⟩

/-- C8: every SSE body the route's stream produces is a sequence of chunk
or error events followed by one `data: [DONE]` terminator: `[DONE]` is
emitted exactly once, it is the last event, and no chunk event follows it
(every event after a `[DONE]` decomposition point is absent). -/
theorem claim_C8 :
    ∀ (chunks : List (List Char)) (term : GenTerminal),
      ((streamStart chunks term).1.count SSEEvent.done = 1) ∧
      ((streamStart chunks term).1.getLast? = some SSEEvent.done) ∧
      (∀ pre suf, (streamStart chunks term).1 = pre ++ SSEEvent.done :: suf →
        suf = []) ∧
      (∀ e ∈ (streamStart chunks term).1,
        (∃ s, e = SSEEvent.chunk s) ∨ e = SSEEvent.done) := by
  intro chunks term
  have hnot : SSEEvent.done ∉ chunks.map SSEEvent.chunk := by
    intro h
    obtain ⟨s, _, hs⟩ := List.mem_map.mp h
    exact SSEEvent.noConfusion hs
  refine ⟨?_, ?_, ?_, ?_⟩
  · show (chunks.map SSEEvent.chunk ++ [SSEEvent.done]).count SSEEvent.done = 1
    rw [List.count_append, List.count_eq_zero.mpr hnot]
    rfl
  · show (chunks.map SSEEvent.chunk ++ [SSEEvent.done]).getLast? = _
    rw [List.getLast?_concat]
  · intro pre suf h
    exact (eq_append_singleton_of_not_mem _ pre suf hnot h.symm).2
  · intro e he
    rcases List.mem_append.mp he with h | h
    · obtain ⟨s, _, hs⟩ := List.mem_map.mp h
      exact Or.inl ⟨s, hs.symm⟩
    · exact Or.inr (List.mem_singleton.mp h)

/-- Witness for C8 on a one-chunk stream: one `[DONE]`, last, and the
decomposition around it has an empty tail. -/
theorem claim_C8_witness :
    (streamStart [['h', 'i']] (GenTerminal.ret none)).1.count SSEEvent.done = 1 ∧
    (streamStart [['h', 'i']] (GenTerminal.ret none)).1.getLast? =
      some SSEEvent.done ∧
    ([] : List SSEEvent) = [] := by
  have h := claim_C8 [['h', 'i']] (GenTerminal.ret none)
  exact ⟨h.1, h.2.1, h.2.2.1 [SSEEvent.chunk ['h', 'i']] [] (by decide)⟩

/-! ## Claim C9: SDK failures and the fallback templates -/

/-- C9 fails on the `GeminiService` at src/services/gemini.ts (the module
the routes import): an SDK failure is rethrown as `Gemini API error: ...`
rather than masked by a canned success. -/
theorem claim_C9_counterexample :
    GeminiService.generateTextStrict "hi".data (SdkOutcome.fail "boom".data) =
      Except.error "Gemini API error: boom".data := by
  rfl

set_option maxRecDepth 100000 in
/-- C9 amended: in the part_005 `GeminiService` variant (the one with the
fallback catch), an SDK failure is masked — `generateText` returns a
successful `GeminiResponse` whose content is the search fallback (when the
prompt needs web search) or the intelligent-response template dispatched by
substring matching; prompts containing `bubble sort` or `who are you`
select their dedicated templates.  The src/services/gemini.ts variant
instead rethrows. -/
theorem claim_C9_amended :
    (∀ prompt errorMessage : List Char,
      GeminiServiceP5.generateText prompt (SdkOutcome.fail errorMessage) =
        { content :=
            if GeminiServiceP5.needsWebSearch prompt then
              GeminiServiceP5.generateSearchFallbackResponse prompt
                (hasSub errorMessage "fetch failed".data)
            else GeminiServiceP5.generateIntelligentResponse prompt,
          tokensUsed := GeminiService.estimateTokens (prompt ++
            (if GeminiServiceP5.needsWebSearch prompt then
              GeminiServiceP5.generateSearchFallbackResponse prompt
                (hasSub errorMessage "fetch failed".data)
            else GeminiServiceP5.generateIntelligentResponse prompt)) }) ∧
    (GeminiServiceP5.generateText "implement bubble sort in python".data
        (SdkOutcome.fail "503".data)).content =
      GeminiServiceP5.bubbleEnT1.data ∧
    (GeminiServiceP5.generateText "who are you".data
        (SdkOutcome.fail "503".data)).content =
      GeminiServiceP5.whoAmIEnT1.data := by
  refine ⟨?_, ?_, ?_⟩
  · intro prompt errorMessage
    by_cases h : GeminiServiceP5.needsWebSearch prompt = true
    · simp [GeminiServiceP5.generateText, h]
    · have h' : GeminiServiceP5.needsWebSearch prompt = false := by simpa using h
      simp [GeminiServiceP5.generateText, h']
  · decide
  · decide

/-! ## Claims C4 and C10: the encryption helper -/

/-- C4: the random IV only reaches the first colon-separated field of
`encrypt`'s output and never seeds the cipher: for one plaintext, two runs
differing only in the generated IV agree on the auth-tag and ciphertext
fields and differ only in the IV field. -/
theorem claim_C4 :
    ∀ (cipherRun : List Char → List Nat × List Nat) (iv₁ iv₂ : List Nat)
      (text : List Char),
      (∀ b ∈ iv₁, b < 256) → (∀ b ∈ iv₂, b < 256) →
      (∀ b ∈ (cipherRun text).1, b < 256) →
      (∀ b ∈ (cipherRun text).2, b < 256) →
      splitOnChar ':' (encrypt cipherRun iv₁ text) =
        [hexOfBytes iv₁, hexOfBytes (cipherRun text).2,
          hexOfBytes (cipherRun text).1] ∧
      splitOnChar ':' (encrypt cipherRun iv₂ text) =
        [hexOfBytes iv₂, hexOfBytes (cipherRun text).2,
          hexOfBytes (cipherRun text).1] ∧
      (splitOnChar ':' (encrypt cipherRun iv₁ text)).tail =
        (splitOnChar ':' (encrypt cipherRun iv₂ text)).tail := by
  intro cr iv₁ iv₂ text h1 h2 hct htag
  have e1 := splitOnChar_encrypt cr iv₁ text h1 hct htag
  have e2 := splitOnChar_encrypt cr iv₂ text h2 hct htag
  refine ⟨e1, e2, ?_⟩
  rw [e1, e2]
  rfl

/-- Witness for C4 with a concrete cipher core and two concrete IVs: the
split output has the claimed fields and the two tails coincide. -/
theorem claim_C4_witness :
    splitOnChar ':' (encrypt (fun _ => ([1, 255], [16])) [0] ['a']) =
      [hexOfBytes [0], hexOfBytes [16], hexOfBytes [1, 255]] ∧
    (splitOnChar ':' (encrypt (fun _ => ([1, 255], [16])) [0] ['a'])).tail =
      (splitOnChar ':' (encrypt (fun _ => ([1, 255], [16])) [255] ['a'])).tail := by
  have h := claim_C4 (fun _ => ([1, 255], [16])) [0] [255] ['a']
    (by decide) (by decide) (by decide) (by decide)
  exact ⟨h.1, h.2.2⟩

/-- C10: `decrypt` inverts `encrypt` whenever the legacy decipher inverts
the legacy cipher on the given plaintext, and `decrypt` throws
`Invalid encrypted data format` exactly when its input does not split into
exactly three colon-separated parts. -/
theorem claim_C10 :
    (∀ (cipherRun : List Char → List Nat × List Nat)
       (decipherRun : List Nat → List Nat → Except (List Char) (List Char))
       (iv : List Nat) (text : List Char),
       (∀ b ∈ iv, b < 256) →
       (∀ b ∈ (cipherRun text).1, b < 256) →
       (∀ b ∈ (cipherRun text).2, b < 256) →
       decipherRun (cipherRun text).1 (cipherRun text).2 = Except.ok text →
       decrypt decipherRun (encrypt cipherRun iv text) = Except.ok text) ∧
    (∀ (decipherRun : List Nat → List Nat → Except (List Char) (List Char))
       (data : List Char),
       (∀ ct tag, decipherRun ct tag ≠
         Except.error "Invalid encrypted data format".data) →
       (decrypt decipherRun data =
           Except.error "Invalid encrypted data format".data ↔
         (splitOnChar ':' data).length ≠ 3)) := by
  constructor
  · intro cr dr iv text hiv hct htag hinv
    have hsp := splitOnChar_encrypt cr iv text hiv hct htag
    rw [decrypt, hsp]
    show dr (bytesOfHex (hexOfBytes (cr text).1))
      (bytesOfHex (hexOfBytes (cr text).2)) = Except.ok text
    rw [bytesOfHex_hexOfBytes _ hct, bytesOfHex_hexOfBytes _ htag]
    exact hinv
  · intro dr data hne
    rcases hsp : splitOnChar ':' data with _ | ⟨a, _ | ⟨b, _ | ⟨c, _ | ⟨d, t⟩⟩⟩⟩
    · simp [decrypt, hsp]
    · simp [decrypt, hsp]
    · simp [decrypt, hsp]
    · simp only [decrypt, hsp, List.length_cons, List.length_nil]
      constructor
      · intro h
        exact absurd h (hne _ _)
      · intro h
        exact absurd rfl h
    · simp only [decrypt, hsp, List.length_cons]
      constructor
      · intro h
        omega
      · intro _
        trivial

/-- Witness for C10 with a concrete invertible cipher pair: the round trip
recovers the plaintext, and an input without colons triggers the format
error characterization. -/
theorem claim_C10_witness :
    decrypt (fun ct tag => if tag = [1] then Except.ok (ct.map Char.ofNat)
        else Except.error "bad".data)
      (encrypt (fun t => (t.map Char.toNat, [1])) [7, 8] "abc".data) =
      Except.ok "abc".data ∧
    (decrypt (fun ct tag => if tag = [1] then Except.ok (ct.map Char.ofNat)
        else Except.error "bad".data) "nocolons".data =
      Except.error "Invalid encrypted data format".data ↔
      (splitOnChar ':' "nocolons".data).length ≠ 3) := by
  constructor
  · exact claim_C10.1 (fun t => (t.map Char.toNat, [1]))
      (fun ct tag => if tag = [1] then Except.ok (ct.map Char.ofNat)
        else Except.error "bad".data) [7, 8] "abc".data
      (by decide) (by decide) (by decide) (by rfl)
  · refine claim_C10.2 _ "nocolons".data ?_
    intro ct tag
    by_cases h : tag = [1]
    · simp [h]
    · simp only [h, if_false, if_neg]
      intro hcontra
      have := Except.error.inj hcontra
      exact absurd this (by decide)

end GeminiCLI
